import Mathlib

/-!
AthenaK (IMEX branch): task scheduling, viscosity and SpECTRE initial data

A verification development over three source files of the repository

* `src/ion-neutral/ion_neutral.hpp`  (class `IonNeutral`)
* `src/diffusion/viscosity.cpp`      (class `Viscosity`)
* `src/pgen/z4c_spectre_bbh.cpp`     (`LoadSpectreInitialData`)

together with the task-list engine that `ion_neutral.hpp` includes
(`tasklist/task_list.hpp`), whose text is not among the sources and which is
therefore modelled from the written specification.

Conventions of the embedding.

* `Real` of the C++ code is modelled by exact rationals `ℚ`; rounding is not
  modelled.
* `int` indices are `Int`; Kokkos views and `std::vector`s are functions of
  their indices, a store being a pointwise function update.
* In `IsotropicViscousFlux` and `LoadSpectreInitialData` every `int` expression
  is evaluated in 32-bit two's complement (`i32`).
* Where the source itself fixes the extent of what it indexes, an access outside
  that extent is recorded and the function then has no result: the variable
  index of a face-flux store against `extent_int(1)` and the index of a scratch
  array against `ncells1` in `IsotropicViscousFlux`; the entry number of a
  coordinate or data vector against `sz` in `LoadSpectreInitialData`, where a
  negative `sz` makes `resize` throw.  The extents of the other arrays are set
  by code outside these files.
* `par_for_outer` / `par_for_inner` are run sequentially in increasing index
  order (the bodies write disjoint cells, so the order is immaterial).
-/

namespace AthenaK

/-! ## Generic loop helpers -/

/-- The inclusive index range `lo, lo+1, …, hi` of a C `for` loop
`for (i = lo; i <= hi; ++i)`; empty when `hi < lo`. -/
def irange (lo hi : Int) : List Int :=
  (List.range (hi + 1 - lo).toNat).map (fun (t : Nat) => lo + (t : Int))

/-- Run `body i` for `i = lo, …, hi` in order, threading the state. -/
def forRange {α : Type} (lo hi : Int) (body : Int → α → α) (init : α) : α :=
  (irange lo hi).foldl (fun acc i => body i acc) init

/-- The store `a(i) = v` into a one-dimensional array (`ScrArray1D<Real>`,
`std::vector<double>`). -/
def set1 (a : Int → ℚ) (i : Int) (v : ℚ) : Int → ℚ :=
  fun i' => if i' = i then v else a i'

/-- The value of a C++ `int` expression whose mathematical value is `x`:
32-bit two's complement, `x` reduced modulo `2^32` into `-2^31 … 2^31 - 1`. -/
def i32 (x : Int) : Int := (x + 2147483648) % 4294967296 - 2147483648

/-! ## Task list engine (section 4.2 / 4.3 of the specification) -/

namespace Sched

/-- A TaskID: an opaque unique value usable in set operations. -/
abbrev TaskID := Nat

/-- Outcome of one operator invocation. -/
inductive TaskStatus where
  | complete
  | incomplete
  | fail
  deriving DecidableEq, Repr

/-- Modelled from the spec: a Task of `tasklist/task_list.hpp` (not among the
sources): identity, dependency set, and the operator.  The operator acts on the
module-owned state `σ` and reports a `TaskStatus`. -/
structure Task (σ : Type) where
  id : TaskID
  deps : Finset TaskID
  op : σ → TaskStatus × σ

/-- Modelled from the spec: a TaskList is the ordered sequence of Tasks plus
the live completion-mask of the stage in progress. -/
structure TaskList (σ : Type) where
  tasks : List (Task σ)
  mask : Finset TaskID

/-- One operator invocation as observed by the scheduler: which Task was
called, with which dependency set, what the completion-mask was at the moment
of the call, and what the operator answered. -/
structure Invocation where
  id : TaskID
  deps : Finset TaskID
  maskAtCall : Finset TaskID
  status : TaskStatus
  deriving DecidableEq

/-- State threaded through one pass over a list. -/
structure PassState (σ : Type) where
  mask : Finset TaskID
  world : σ
  log : List Invocation
  failed : Bool

/-- Modelled from the spec: the readiness test of section 4.1: a Task is ready
iff its dependency set is a subset of the completion-mask. -/
def ready {σ : Type} (t : Task σ) (mask : Finset TaskID) : Bool :=
  decide (t.deps ⊆ mask)

/-- Modelled from the spec: what one pass does with one Task (section 4.2).  A
Task already in the completion-mask is skipped; a Task whose dependencies are
not all in the mask is skipped; otherwise the operator is invoked once.  On
`complete` the TaskID enters the mask, on `incomplete` the Task stays pending,
on `fail` the pass aborts (nothing later in the pass is invoked). -/
def visit {σ : Type} (s : PassState σ) (t : Task σ) : PassState σ :=
  if s.failed then s
  else if t.id ∈ s.mask then s
  else if ready t s.mask then
    let r := t.op s.world
    let ev : Invocation := ⟨t.id, t.deps, s.mask, r.1⟩
    match r.1 with
    | TaskStatus.complete =>
        { mask := insert t.id s.mask, world := r.2, log := s.log ++ [ev], failed := false }
    | TaskStatus.incomplete =>
        { mask := s.mask, world := r.2, log := s.log ++ [ev], failed := false }
    | TaskStatus.fail =>
        { mask := s.mask, world := r.2, log := s.log ++ [ev], failed := true }
  else s

/-- Modelled from the spec: `doAvailableTasks` of section 4.2: exactly one pass
over the list in registration order. -/
def doAvailableTasks {σ : Type} (tasks : List (Task σ)) (s : PassState σ) : PassState σ :=
  tasks.foldl visit s

/-- Modelled from the spec: aggregate status of a list after a pass: `fail` if
a Task failed, `complete` if every Task of the list is in the completion-mask,
otherwise `incomplete`. -/
def aggregate {σ : Type} (tasks : List (Task σ)) (s : PassState σ) : TaskStatus :=
  if s.failed then TaskStatus.fail
  else if tasks.all (fun t => decide (t.id ∈ s.mask)) then TaskStatus.complete
  else TaskStatus.incomplete

/-- Modelled from the spec: the completion-mask is cleared at the start of
every stage. -/
def stageStart {σ : Type} (w : σ) : PassState σ :=
  { mask := ∅, world := w, log := [], failed := false }

/-- Modelled from the spec: a sequence of `n` list passes within one stage
(section 4.3), starting from the cleared mask.  After a `fail` no further Task
is invoked (every later `visit` is a no-op). -/
def runStage {σ : Type} (tl : TaskList σ) (w : σ) : Nat → PassState σ
  | 0 => stageStart w
  | n + 1 => doAvailableTasks tl.tasks (runStage tl w n)

end Sched

/-! ## The `IonNeutral` class declaration (`ion_neutral.hpp`) -/

namespace IonNeutralDecl

/-- The C++ types that occur in the declaration of class `IonNeutral`. -/
inductive CType where
  | void
  | int
  | Real
  | TaskStatus
  | TaskList
  | TaskID
  | Driver
  | MeshBlockPack
  | ParameterInput
  | IonNeutralTaskIDs
  | DvceArray6D_Real
  deriving DecidableEq, Repr

/-- How a value of a type is passed or held: `T`, `T*` or `T&` (the header uses
no `const`). -/
inductive Passing where
  | byValue
  | pointer
  | mutRef
  deriving DecidableEq, Repr

/-- A declared type: a base type with its passing mode. -/
structure QualType where
  base : CType
  mode : Passing
  deriving DecidableEq, Repr

/-- One formal parameter of a member function. -/
structure Param where
  ty : QualType
  name : String
  deriving DecidableEq, Repr

/-- Access section of a class member. -/
inductive Access where
  | pub
  | priv
  deriving DecidableEq, Repr

/-- A member of a class: constructor, destructor, data member or member
function (with return type and parameter list). -/
inductive Member where
  | ctor (acc : Access) (params : List Param)
  | dtor (acc : Access)
  | field (acc : Access) (ty : QualType) (name : String)
  | method (acc : Access) (ret : QualType) (name : String) (params : List Param)
  deriving DecidableEq, Repr

/-- Class `IonNeutral`, lines 51-70 of `ion_neutral.hpp`, member by member in
declaration order. -/
def IonNeutral : List Member :=
  [ Member.ctor Access.pub
      [ ⟨⟨CType.MeshBlockPack, Passing.pointer⟩, "ppack"⟩,
        ⟨⟨CType.ParameterInput, Passing.pointer⟩, "pin"⟩,
        ⟨⟨CType.Driver, Passing.pointer⟩, "pdrive"⟩ ],
    Member.dtor Access.pub,
    Member.field Access.pub ⟨CType.Real, Passing.byValue⟩ "drag_coeff",
    Member.field Access.pub ⟨CType.DvceArray6D_Real, Passing.byValue⟩ "ru",
    Member.field Access.pub ⟨CType.IonNeutralTaskIDs, Passing.byValue⟩ "id",
    Member.method Access.pub ⟨CType.void, Passing.byValue⟩ "AssembleIonNeutralTasks"
      [ ⟨⟨CType.TaskList, Passing.mutRef⟩, "start"⟩,
        ⟨⟨CType.TaskList, Passing.mutRef⟩, "run"⟩,
        ⟨⟨CType.TaskList, Passing.mutRef⟩, "end"⟩ ],
    Member.method Access.pub ⟨CType.TaskStatus, Passing.byValue⟩ "FirstTwoImpRK"
      [ ⟨⟨CType.Driver, Passing.pointer⟩, "pdrive"⟩,
        ⟨⟨CType.int, Passing.byValue⟩, "stage"⟩ ],
    Member.method Access.pub ⟨CType.TaskStatus, Passing.byValue⟩ "ImpRKUpdate"
      [ ⟨⟨CType.Driver, Passing.pointer⟩, "pdrive"⟩,
        ⟨⟨CType.int, Passing.byValue⟩, "stage"⟩ ],
    Member.field Access.priv ⟨CType.MeshBlockPack, Passing.pointer⟩ "pmy_pack" ]

/-- A member is exposed when it is a member function of the public section. -/
def Member.isPublicMethod : Member → Bool
  | Member.method Access.pub _ _ _ => true
  | _ => false

/-- Name of a member function (empty for the other members). -/
def Member.methodName : Member → String
  | Member.method _ _ n _ => n
  | _ => ""

/-- Parameter types of a member function, in order. -/
def Member.paramTypes : Member → List QualType
  | Member.method _ _ _ ps => ps.map Param.ty
  | Member.ctor _ ps => ps.map Param.ty
  | _ => []

/-- Return type of a member function, if the member is one. -/
def Member.returnType : Member → Option QualType
  | Member.method _ r _ _ => some r
  | _ => none

/-- An assembly operation is an exposed member function that receives a
TaskList. -/
def Member.isAssembly (d : Member) : Bool :=
  d.isPublicMethod && d.paramTypes.any (fun t => decide (t.base = CType.TaskList))

/-- A task operator is a member function that returns a `TaskStatus`. -/
def Member.isTaskOperator (d : Member) : Bool :=
  decide (d.returnType = some ⟨CType.TaskStatus, Passing.byValue⟩)

end IonNeutralDecl

/-! ## Viscosity (`viscosity.cpp`) -/

namespace Diffusion

/-- The macro `SQR(x)` of `athena.hpp`: the square of its argument. -/
def SQR (x : ℚ) : ℚ := x * x

/-- The function `std::min(a, b)`: returns `b` when `b < a` and `a` otherwise. -/
def stdMin (a b : ℚ) : ℚ := if b < a then b else a

/-- The constant `std::numeric_limits<float>::max()`, the largest finite binary32 value
`(2^24 - 1) * 2^104`. -/
def FLT_MAX : ℚ := 340282346638528859811704183484516925440

/-- Dimension flags of the `Mesh` that the viscosity code reads. -/
structure Mesh where
  one_d : Bool
  two_d : Bool
  three_d : Bool
  multi_d : Bool

/-- A `DualArray1D<Real>`: a host view and a device view, indexed by the
MeshBlock number. -/
structure DualArray1D where
  h_view : Int → ℚ
  d_view : Int → ℚ

/-- The part of `mbsize` that is read: the cell widths of every MeshBlock. -/
structure MeshBlockSize where
  dx1 : DualArray1D
  dx2 : DualArray1D
  dx3 : DualArray1D

/-- The part of `mb_cells` that is read. -/
structure RegionCells where
  ng : Int
  nx1 : Int
  is : Int
  ie : Int
  js : Int
  je : Int
  ks : Int
  ke : Int

/-- The part of a `MeshBlockPack` that the viscosity code reads
(`pmesh`, `nmb_thispack`, `pmb->mbsize`, `mb_cells`). -/
structure MeshBlockPack where
  pmesh : Mesh
  nmb_thispack : Int
  mbsize : MeshBlockSize
  mb_cells : RegionCells

/-- Modelled from the spec: the key-value configuration source
(`parameter_input.hpp` is not among the sources): a list of entries
`(section, parameter name, value)`. -/
structure ParameterInput where
  entries : List (String × String × ℚ)

/-- Modelled from the spec: `ParameterInput::GetReal(block, name)`, the lookup
without a default: the stored value of the first entry under that section and
name, and no value at all when there is none. -/
def ParameterInput.GetReal (pin : ParameterInput) (block name : String) : Option ℚ :=
  (pin.entries.find? (fun e => e.1 == block && e.2.1 == name)).map (fun e => e.2.2)

/-- The data members of a constructed `Viscosity` object. -/
structure Viscosity where
  pmy_pack : MeshBlockPack
  nu : ℚ
  dtnew : ℚ

/-- The constructor `Viscosity::Viscosity(block, pp, pin)`, lines 26-49.
It yields no object when `GetReal` has no value to return. -/
def Viscosity.ctor (block : String) (pp : MeshBlockPack) (pin : ParameterInput) :
    Option Viscosity :=
  match pin.GetReal block "viscosity" with
  | none => none
  | some nu =>
    let dtnew := FLT_MAX
    let size := pp.mbsize
    let fac : ℚ :=
      if pp.pmesh.three_d then 1 / 6
      else if pp.pmesh.two_d then 1 / 4   -- 0.25
      else 1 / 2                           -- 0.5
    let dtnew := forRange 0 (pp.nmb_thispack - 1) (fun m dtnew =>
      let dtnew := stdMin dtnew (fac * SQR (size.dx1.h_view m) / nu)
      let dtnew := if pp.pmesh.multi_d then stdMin dtnew (fac * SQR (size.dx2.h_view m) / nu)
                   else dtnew
      let dtnew := if pp.pmesh.three_d then stdMin dtnew (fac * SQR (size.dx3.h_view m) / nu)
                   else dtnew
      dtnew) dtnew
    some { pmy_pack := pp, nu := nu, dtnew := dtnew }

/-- Indices of the hydrodynamic variables (`enum VariableIndex` of
`athena.hpp`, which is not among the sources; taken as a parameter). -/
structure VariableIndex where
  IDN : Int
  IVX : Int
  IVY : Int
  IVZ : Int
  IEN : Int

/-- A `DvceArray5D<Real>`, indexed `(m, n, k, j, i)`. -/
abbrev DvceArray5D := Int → Int → Int → Int → Int → ℚ

/-- A `DvceFaceFld5D<Real>`: one array per face direction. -/
structure DvceFaceFld5D where
  x1f : DvceArray5D
  x2f : DvceArray5D
  x3f : DvceArray5D

/-- The store `a(m,n,k,j,i) = v`. -/
def set5 (a : DvceArray5D) (m n k j i : Int) (v : ℚ) : DvceArray5D :=
  fun m' n' k' j' i' =>
    if m' = m ∧ n' = n ∧ k' = k ∧ j' = j ∧ i' = i then v else a m' n' k' j' i'

/-- A face-flux array while it is being written: its content, and whether every
store made so far had its variable index `n` inside the extent of that
dimension.  A store outside the extent is an out-of-range access, after which
the run has no defined result. -/
structure Written5D where
  a : DvceArray5D
  inRange : Bool

/-- The store `flx(m,n,k,j,i) = v` into a face-flux array whose variable
dimension has extent `extent1` (`flx.extent_int(1)`): the cell is written when
`0 ≤ n < extent1`; otherwise the store is out of range and is recorded as such. -/
def store5 (extent1 : Int) (flx : Written5D) (m n k j i : Int) (v : ℚ) : Written5D :=
  if 0 ≤ n ∧ n < extent1 then { flx with a := set5 flx.a m n k j i v }
  else { flx with inRange := false }

/-- The three scratch arrays `fvx`, `fvy`, `fvz` of one team, each of `ncells1`
entries (lines 84-86), and whether every access so far was at an entry
`0 ≤ i < ncells1`.  An access outside is out of range, after which the run has no
defined result. -/
structure Scratch where
  fvx : Int → ℚ
  fvy : Int → ℚ
  fvz : Int → ℚ
  inRange : Bool

/-- Freshly obtained team scratch memory (its content is never read before
it is written). -/
def Scratch.fresh : Scratch := ⟨fun _ => 0, fun _ => 0, fun _ => 0, true⟩

/-- Body of `par_for_outer "visc1"` for one `(m, k, j)`, lines 83-131.  Index
arithmetic is `int` arithmetic.  Under `flx1.extent_int(1) == IEN` the energy
store `flx1(m,IEN,k,j,i)` has its variable index equal to the extent, which
`store5` records as out of range.  The sums of lines 119-130 read the scratch
entries that the loops before them wrote. -/
def visc1 (pk : MeshBlockPack) (ix : VariableIndex) (extent1 : Int) (w0 : DvceArray5D)
    (nu : ℚ) (m k j : Int) (flx1 : Written5D) : Written5D :=
  let is := pk.mb_cells.is
  let ie := pk.mb_cells.ie
  let ncells1 := i32 (pk.mb_cells.nx1 + i32 (2 * pk.mb_cells.ng))
  let size := pk.mbsize
  let scr := Scratch.fresh
  -- Add [2(dVx/dx)-(2/3)dVx/dx, dVy/dx, dVz/dx]
  let scr := forRange is (i32 (ie + 1)) (fun i (scr : Scratch) =>
    let scr := { scr with inRange := scr.inRange && decide (0 ≤ i ∧ i < ncells1) }
    let scr := { scr with
      fvx := set1 scr.fvx i
          (4 * (w0 m ix.IVX k j i - w0 m ix.IVX k j (i32 (i - 1))) / (3 * size.dx1.d_view m)) }
    let scr := { scr with
      fvy := set1 scr.fvy i
          ((w0 m ix.IVY k j i - w0 m ix.IVY k j (i32 (i - 1))) / size.dx1.d_view m) }
    let scr := { scr with
      fvz := set1 scr.fvz i
          ((w0 m ix.IVZ k j i - w0 m ix.IVZ k j (i32 (i - 1))) / size.dx1.d_view m) }
    scr) scr
  -- In 2D/3D Add [(-2/3)dVy/dy, dVx/dy, 0]
  let scr := if pk.pmesh.multi_d then
    forRange is (i32 (ie + 1)) (fun i (scr : Scratch) =>
      let scr := { scr with inRange := scr.inRange && decide (0 ≤ i ∧ i < ncells1) }
      let scr := { scr with
        fvx := set1 scr.fvx i (scr.fvx i -
            ((w0 m ix.IVY k (i32 (j + 1)) i + w0 m ix.IVY k (i32 (j + 1)) (i32 (i - 1))) -
             (w0 m ix.IVY k (i32 (j - 1)) i + w0 m ix.IVY k (i32 (j - 1)) (i32 (i - 1)))) / (6 * size.dx2.d_view m)) }
      let scr := { scr with
        fvy := set1 scr.fvy i (scr.fvy i +
            ((w0 m ix.IVX k (i32 (j + 1)) i + w0 m ix.IVX k (i32 (j + 1)) (i32 (i - 1))) -
             (w0 m ix.IVX k (i32 (j - 1)) i + w0 m ix.IVX k (i32 (j - 1)) (i32 (i - 1)))) / (4 * size.dx2.d_view m)) }
      scr) scr
    else scr
  -- In 3D Add [(-2/3)dVz/dz, 0,  dVx/dz]
  let scr := if pk.pmesh.three_d then
    forRange is (i32 (ie + 1)) (fun i (scr : Scratch) =>
      let scr := { scr with inRange := scr.inRange && decide (0 ≤ i ∧ i < ncells1) }
      let scr := { scr with
        fvx := set1 scr.fvx i (scr.fvx i -
            ((w0 m ix.IVZ (i32 (k + 1)) j i + w0 m ix.IVZ (i32 (k + 1)) j (i32 (i - 1))) -
             (w0 m ix.IVZ (i32 (k - 1)) j i + w0 m ix.IVZ (i32 (k - 1)) j (i32 (i - 1)))) / (6 * size.dx3.d_view m)) }
      let scr := { scr with
        fvz := set1 scr.fvz i (scr.fvz i +
            ((w0 m ix.IVX (i32 (k + 1)) j i + w0 m ix.IVX (i32 (k + 1)) j (i32 (i - 1))) -
             (w0 m ix.IVX (i32 (k - 1)) j i + w0 m ix.IVX (i32 (k - 1)) j (i32 (i - 1)))) / (4 * size.dx3.d_view m)) }
      scr) scr
    else scr
  -- Sum viscous fluxes into fluxes of conserved variables; including energy fluxes
  let flx1 := { flx1 with inRange := flx1.inRange && scr.inRange }
  forRange is (i32 (ie + 1)) (fun i (flx1 : Written5D) =>
    let nud := 1 / 2 * nu * (w0 m ix.IDN k j i + w0 m ix.IDN k j (i32 (i - 1)))
    let flx1 := store5 extent1 flx1 m ix.IVX k j i (flx1.a m ix.IVX k j i - nud * scr.fvx i)
    let flx1 := store5 extent1 flx1 m ix.IVY k j i (flx1.a m ix.IVY k j i - nud * scr.fvy i)
    let flx1 := store5 extent1 flx1 m ix.IVZ k j i (flx1.a m ix.IVZ k j i - nud * scr.fvz i)
    if extent1 = ix.IEN then
      store5 extent1 flx1 m ix.IEN k j i (flx1.a m ix.IEN k j i -
        1 / 2 * nud * ((w0 m ix.IVX k j (i32 (i - 1)) + w0 m ix.IVX k j i) * scr.fvx i +
                       (w0 m ix.IVY k j (i32 (i - 1)) + w0 m ix.IVY k j i) * scr.fvy i +
                       (w0 m ix.IVZ k j (i32 (i - 1)) + w0 m ix.IVZ k j i) * scr.fvz i))
    else flx1) flx1

/-- Body of `par_for_outer "visc2"` for one `(m, k, j)`, lines 142-183; the energy
store is out of range as in `visc1`. -/
def visc2 (pk : MeshBlockPack) (ix : VariableIndex) (extent1 : Int) (w0 : DvceArray5D)
    (nu : ℚ) (m k j : Int) (flx2 : Written5D) : Written5D :=
  let is := pk.mb_cells.is
  let ie := pk.mb_cells.ie
  let ncells1 := i32 (pk.mb_cells.nx1 + i32 (2 * pk.mb_cells.ng))
  let size := pk.mbsize
  let scr := Scratch.fresh
  -- Add [(dVx/dy+dVy/dx), 2(dVy/dy)-(2/3)(dVx/dx+dVy/dy), dVz/dy]
  let scr := forRange is ie (fun i (scr : Scratch) =>
    let scr := { scr with inRange := scr.inRange && decide (0 ≤ i ∧ i < ncells1) }
    let scr := { scr with
      fvx := set1 scr.fvx i
          ((w0 m ix.IVX k j i - w0 m ix.IVX k (i32 (j - 1)) i) / size.dx2.d_view m +
           ((w0 m ix.IVY k j (i32 (i + 1)) + w0 m ix.IVY k (i32 (j - 1)) (i32 (i + 1))) -
            (w0 m ix.IVY k j (i32 (i - 1)) + w0 m ix.IVY k (i32 (j - 1)) (i32 (i - 1)))) / (4 * size.dx1.d_view m)) }
    let scr := { scr with
      fvy := set1 scr.fvy i
          ((w0 m ix.IVY k j i - w0 m ix.IVY k (i32 (j - 1)) i) * 4 / (3 * size.dx2.d_view m) -
           ((w0 m ix.IVX k j (i32 (i + 1)) + w0 m ix.IVX k (i32 (j - 1)) (i32 (i + 1))) -
            (w0 m ix.IVX k j (i32 (i - 1)) + w0 m ix.IVX k (i32 (j - 1)) (i32 (i - 1)))) / (6 * size.dx1.d_view m)) }
    let scr := { scr with
      fvz := set1 scr.fvz i
          ((w0 m ix.IVZ k j i - w0 m ix.IVZ k (i32 (j - 1)) i) / size.dx2.d_view m) }
    scr) scr
  -- In 3D Add [0, (-2/3)dVz/dz, dVy/dz]
  let scr := if pk.pmesh.three_d then
    forRange is ie (fun i (scr : Scratch) =>
      let scr := { scr with inRange := scr.inRange && decide (0 ≤ i ∧ i < ncells1) }
      let scr := { scr with
        fvy := set1 scr.fvy i (scr.fvy i -
            ((w0 m ix.IVZ (i32 (k + 1)) j i + w0 m ix.IVZ (i32 (k + 1)) (i32 (j - 1)) i) -
             (w0 m ix.IVZ (i32 (k - 1)) j i + w0 m ix.IVZ (i32 (k - 1)) (i32 (j - 1)) i)) / (6 * size.dx3.d_view m)) }
      let scr := { scr with
        fvz := set1 scr.fvz i (scr.fvz i +
            ((w0 m ix.IVY (i32 (k + 1)) j i + w0 m ix.IVY (i32 (k + 1)) (i32 (j - 1)) i) -
             (w0 m ix.IVY (i32 (k - 1)) j i + w0 m ix.IVY (i32 (k - 1)) (i32 (j - 1)) i)) / (4 * size.dx3.d_view m)) }
      scr) scr
    else scr
  -- Sum viscous fluxes into fluxes of conserved variables; including energy fluxes
  let flx2 := { flx2 with inRange := flx2.inRange && scr.inRange }
  forRange is ie (fun i (flx2 : Written5D) =>
    let nud := 1 / 2 * nu * (w0 m ix.IDN k j i + w0 m ix.IDN k (i32 (j - 1)) i)
    let flx2 := store5 extent1 flx2 m ix.IVX k j i (flx2.a m ix.IVX k j i - nud * scr.fvx i)
    let flx2 := store5 extent1 flx2 m ix.IVY k j i (flx2.a m ix.IVY k j i - nud * scr.fvy i)
    let flx2 := store5 extent1 flx2 m ix.IVZ k j i (flx2.a m ix.IVZ k j i - nud * scr.fvz i)
    if extent1 = ix.IEN then
      store5 extent1 flx2 m ix.IEN k j i (flx2.a m ix.IEN k j i -
        1 / 2 * nud * ((w0 m ix.IVX k (i32 (j - 1)) i + w0 m ix.IVX k j i) * scr.fvx i +
                       (w0 m ix.IVY k (i32 (j - 1)) i + w0 m ix.IVY k j i) * scr.fvy i +
                       (w0 m ix.IVZ k (i32 (j - 1)) i + w0 m ix.IVZ k j i) * scr.fvz i))
    else flx2) flx2

/-- Body of `par_for_outer "visc3"` for one `(m, k, j)`, lines 194-228; the energy
store is out of range as in `visc1`. -/
def visc3 (pk : MeshBlockPack) (ix : VariableIndex) (extent1 : Int) (w0 : DvceArray5D)
    (nu : ℚ) (m k j : Int) (flx3 : Written5D) : Written5D :=
  let is := pk.mb_cells.is
  let ie := pk.mb_cells.ie
  let ncells1 := i32 (pk.mb_cells.nx1 + i32 (2 * pk.mb_cells.ng))
  let size := pk.mbsize
  let scr := Scratch.fresh
  -- Add [(dVx/dz+dVz/dx), (dVy/dz+dVz/dy), 2(dVz/dz)-(2/3)(dVx/dx+dVy/dy+dVz/dz)]
  let scr := forRange is ie (fun i (scr : Scratch) =>
    let scr := { scr with inRange := scr.inRange && decide (0 ≤ i ∧ i < ncells1) }
    let scr := { scr with
      fvx := set1 scr.fvx i
          ((w0 m ix.IVX k j i - w0 m ix.IVX (i32 (k - 1)) j i) / size.dx3.d_view m +
           ((w0 m ix.IVZ k j (i32 (i + 1)) + w0 m ix.IVZ (i32 (k - 1)) j (i32 (i + 1))) -
            (w0 m ix.IVZ k j (i32 (i - 1)) + w0 m ix.IVZ (i32 (k - 1)) j (i32 (i - 1)))) / (4 * size.dx1.d_view m)) }
    let scr := { scr with
      fvy := set1 scr.fvy i
          ((w0 m ix.IVY k j i - w0 m ix.IVY (i32 (k - 1)) j i) / size.dx3.d_view m +
           ((w0 m ix.IVZ k (i32 (j + 1)) i + w0 m ix.IVZ (i32 (k - 1)) (i32 (j + 1)) i) -
            (w0 m ix.IVZ k (i32 (j - 1)) i + w0 m ix.IVZ (i32 (k - 1)) (i32 (j - 1)) i)) / (4 * size.dx2.d_view m)) }
    let scr := { scr with
      fvz := set1 scr.fvz i
          ((w0 m ix.IVZ k j i - w0 m ix.IVZ (i32 (k - 1)) j i) * 4 / (3 * size.dx3.d_view m) -
           ((w0 m ix.IVX k j (i32 (i + 1)) + w0 m ix.IVX (i32 (k - 1)) j (i32 (i + 1))) -
            (w0 m ix.IVX k j (i32 (i - 1)) + w0 m ix.IVX (i32 (k - 1)) j (i32 (i - 1)))) / (6 * size.dx1.d_view m) -
           ((w0 m ix.IVY k (i32 (j + 1)) i + w0 m ix.IVY (i32 (k - 1)) (i32 (j + 1)) i) -
            (w0 m ix.IVY k (i32 (j - 1)) i + w0 m ix.IVY (i32 (k - 1)) (i32 (j - 1)) i)) / (6 * size.dx2.d_view m)) }
    scr) scr
  -- Sum viscous fluxes into fluxes of conserved variables; including energy fluxes
  let flx3 := { flx3 with inRange := flx3.inRange && scr.inRange }
  forRange is ie (fun i (flx3 : Written5D) =>
    let nud := 1 / 2 * nu * (w0 m ix.IDN k j i + w0 m ix.IDN (i32 (k - 1)) j i)
    let flx3 := store5 extent1 flx3 m ix.IVX k j i (flx3.a m ix.IVX k j i - nud * scr.fvx i)
    let flx3 := store5 extent1 flx3 m ix.IVY k j i (flx3.a m ix.IVY k j i - nud * scr.fvy i)
    let flx3 := store5 extent1 flx3 m ix.IVZ k j i (flx3.a m ix.IVZ k j i - nud * scr.fvz i)
    if extent1 = ix.IEN then
      store5 extent1 flx3 m ix.IEN k j i (flx3.a m ix.IEN k j i -
        1 / 2 * nud * ((w0 m ix.IVX (i32 (k - 1)) j i + w0 m ix.IVX k j i) * scr.fvx i +
                       (w0 m ix.IVY (i32 (k - 1)) j i + w0 m ix.IVY k j i) * scr.fvy i +
                       (w0 m ix.IVZ (i32 (k - 1)) j i + w0 m ix.IVZ k j i) * scr.fvz i))
    else flx3) flx3

/-- The loop `par_for_outer(name, …, 0, nmb1, kl, ku, jl, ju, body)`: the body is run for
every `(m, k, j)` of the three inclusive ranges. -/
def par_for_outer {α : Type} (ml mu kl ku jl ju : Int) (body : Int → Int → Int → α → α)
    (init : α) : α :=
  forRange ml mu (fun m acc =>
    forRange kl ku (fun k acc =>
      forRange jl ju (fun j acc => body m k j acc) acc) acc) init

/-- The function `Viscosity::IsotropicViscousFlux(w0, flx, nu)`, lines 62-232, for the
object whose pack is `pk`.  `extent1` is `flx.x1f.extent_int(1)` (equal for the
three face arrays).  The function returns after the x1 fluxes on a 1D mesh and
after the x2 fluxes on a 2D mesh.  There is no result (`none`) when a store was
out of range. -/
def IsotropicViscousFlux (pk : MeshBlockPack) (ix : VariableIndex) (extent1 : Int)
    (w0 : DvceArray5D) (flx : DvceFaceFld5D) (nu : ℚ) : Option DvceFaceFld5D :=
  let js := pk.mb_cells.js
  let je := pk.mb_cells.je
  let ks := pk.mb_cells.ks
  let ke := pk.mb_cells.ke
  let nmb1 := i32 (pk.nmb_thispack - 1)
  -- fluxes in x1-direction
  let flx1 := par_for_outer 0 nmb1 ks ke js je (visc1 pk ix extent1 w0 nu) ⟨flx.x1f, true⟩
  if flx1.inRange = false then none
  else
    let flx := { flx with x1f := flx1.a }
    if pk.pmesh.one_d then some flx
    else
      -- fluxes in x2-direction
      let flx2 :=
        par_for_outer 0 nmb1 ks ke js (i32 (je + 1)) (visc2 pk ix extent1 w0 nu) ⟨flx.x2f, true⟩
      if flx2.inRange = false then none
      else
        let flx := { flx with x2f := flx2.a }
        if pk.pmesh.two_d then some flx
        else
          -- fluxes in x3-direction
          let flx3 :=
            par_for_outer 0 nmb1 ks (i32 (ke + 1)) js je (visc3 pk ix extent1 w0 nu) ⟨flx.x3f, true⟩
          if flx3.inRange = false then none
          else some { flx with x3f := flx3.a }

/-- The dimension flags are consistent: exactly one of `one_d`, `two_d`,
`three_d` is set, and `multi_d` is set iff `one_d` is not. -/
def Mesh.consistent (pm : Mesh) : Prop :=
  ((pm.one_d = true ∧ pm.two_d = false ∧ pm.three_d = false) ∨
   (pm.one_d = false ∧ pm.two_d = true ∧ pm.three_d = false) ∨
   (pm.one_d = false ∧ pm.two_d = false ∧ pm.three_d = true)) ∧
  (pm.multi_d = true ↔ pm.one_d = false)

/-- Spec-side: the factor of the viscous timestep, `1/2` in 1D, `1/4` in 2D
and `1/6` in 3D. -/
def specFac (pm : Mesh) : ℚ :=
  if pm.one_d then 1 / 2 else if pm.two_d then 1 / 4 else 1 / 6

/-- Spec-side: the active directions (`0` for x1, `1` for x2, `2` for x3):
x1 in 1D, x1 and x2 in 2D, all three in 3D. -/
def specDirs (pm : Mesh) : Finset (Fin 3) :=
  if pm.one_d then {0} else if pm.two_d then {0, 1} else {0, 1, 2}

/-- Cell width of MeshBlock `m` in direction `d`, read from the host views. -/
def dxOf (size : MeshBlockSize) (d : Fin 3) (m : Int) : ℚ :=
  match d with
  | 0 => size.dx1.h_view m
  | 1 => size.dx2.h_view m
  | 2 => size.dx3.h_view m

/-- Spec-side: the viscous timestep as the claim words it,
`min(FLT_MAX, fac * min over blocks m and active directions d of dx_d(m)^2 / nu)`. -/
def specDtnew (pp : MeshBlockPack) (nu : ℚ) (h : 1 ≤ pp.nmb_thispack) : ℚ :=
  min FLT_MAX (specFac pp.pmesh *
    (Finset.Ico 0 pp.nmb_thispack ×ˢ specDirs pp.pmesh).inf'
      (Finset.Nonempty.product (Finset.nonempty_Ico.2 (by omega))
        (by unfold specDirs; split_ifs <;> simp))
      (fun md => (dxOf pp.mbsize md.2 md.1) ^ 2 / nu))

/-- A concrete 2D pack of two MeshBlocks (cell widths `1/2`, `1/8` and
`1/4`, `1/8`). -/
def demoPack2d : MeshBlockPack :=
  { pmesh := { one_d := false, two_d := true, three_d := false, multi_d := true },
    nmb_thispack := 2,
    mbsize :=
      { dx1 := ⟨fun m => if m = 0 then 1 / 2 else 1 / 4, fun m => if m = 0 then 1 / 2 else 1 / 4⟩,
        dx2 := ⟨fun _ => 1 / 8, fun _ => 1 / 8⟩,
        dx3 := ⟨fun _ => 1, fun _ => 1⟩ },
    mb_cells := { ng := 2, nx1 := 4, is := 2, ie := 5, js := 2, je := 5, ks := 0, ke := 0 } }

/-- A concrete configuration with a viscosity for `hydro` and another for
`mhd`. -/
def demoInput : ParameterInput :=
  ⟨[("mhd", "viscosity", 3), ("hydro", "viscosity", 1 / 2)]⟩

end Diffusion

/-! ## SpECTRE initial data (`z4c_spectre_bbh.cpp`) -/

namespace Pgen

/-- The part of `mb_indcs` (cell indices of a MeshBlock) that is read. -/
structure RegionIndcs where
  ng : Int
  nx1 : Int
  nx2 : Int
  nx3 : Int
  is : Int
  ie : Int
  js : Int
  je : Int
  ks : Int
  ke : Int

/-- Physical extent of one MeshBlock, `size.h_view(m)`. -/
structure RegionSize where
  x1min : ℚ
  x1max : ℚ
  x2min : ℚ
  x2max : ℚ
  x3min : ℚ
  x3max : ℚ

/-- The part of a `MeshBlockPack` that `LoadSpectreInitialData` reads. -/
structure MeshBlockPack where
  mb_indcs : RegionIndcs
  mb_size : Int → RegionSize
  nmb_thispack : Int

/-- The slices of the ADM array that the loader writes (`ADMhost_vars`):
`psi4(m,k,j,i)`, `g_dd(m,a,b,k,j,i)` and `vK_dd(m,a,b,k,j,i)`. -/
structure ADMhost_vars where
  psi4 : Int → Int → Int → Int → ℚ
  g_dd : Int → Int → Int → Int → Int → Int → ℚ
  vK_dd : Int → Int → Int → Int → Int → Int → ℚ

/-- The store `a(m,k,j,i) = v`. -/
def set4 (a : Int → Int → Int → Int → ℚ) (m k j i : Int) (v : ℚ) :
    Int → Int → Int → Int → ℚ :=
  fun m' k' j' i' => if m' = m ∧ k' = k ∧ j' = j ∧ i' = i then v else a m' k' j' i'

/-- The store `a(m,a,b,k,j,i) = v`. -/
def set6 (t : Int → Int → Int → Int → Int → Int → ℚ) (m a b k j i : Int) (v : ℚ) :
    Int → Int → Int → Int → Int → Int → ℚ :=
  fun m' a' b' k' j' i' =>
    if m' = m ∧ a' = a ∧ b' = b ∧ k' = k ∧ j' = j ∧ i' = i then v else t m' a' b' k' j' i'

/-- The three coordinate vectors `x[0]`, `x[1]`, `x[2]` (each a
`std::vector<double>` of `sz` entries), as functions of the entry number,
together with the record of whether every element access so far was at an
entry number `0 ≤ p < sz`.  An access outside the vector is out of range, after
which the run has no defined result. -/
structure Coords where
  x0 : Int → ℚ
  x1 : Int → ℚ
  x2 : Int → ℚ
  inRange : Bool

/-- The host arrays while the interpolated data are moved into them, together
with the record of whether every read of a data array (one entry per target
point, `sz` entries) was at an entry number `0 ≤ p < sz`. -/
structure HostData where
  adm : ADMhost_vars
  inRange : Bool

/-- The content of the three coordinate vectors as handed to the interpolation:
their `sz` entries, in order. -/
structure TargetPoints where
  x0 : List ℚ
  x1 : List ℚ
  x2 : List ℚ
  deriving DecidableEq

/-- The `sz` entries of a vector. -/
def entries (sz : Int) (v : Int → ℚ) : List ℚ :=
  (List.range sz.toNat).map (fun (p : Nat) => v (p : Int))

/-- The `sz` entries of each coordinate vector. -/
def Coords.targets (sz : Int) (x : Coords) : TargetPoints :=
  ⟨entries sz x.x0, entries sz x.x1, entries sz x.x2⟩

/-- Functions the loader calls whose text is not among the sources; they are
parameters of the embedding.

* `CellCenterX ith nx xmin xmax` of `coordinates/cell_locations.hpp`;
* `SpatialDet gxx gxy gxz gyy gyz gzz` of `coordinates/adm.hpp`;
* `cbrt d` for `std::pow(d, 1./3.)`;
* `field glob subfile step name targets extrapolate p`: the value the SpECTRE
  exporter interpolates for the tensor component `name` at target point
  number `p`. -/
structure Externals where
  CellCenterX : Int → Int → ℚ → ℚ → ℚ
  SpatialDet : ℚ → ℚ → ℚ → ℚ → ℚ → ℚ → ℚ
  cbrt : ℚ → ℚ
  field : String → String → Int → String → TargetPoints → Bool → Int → ℚ

/-- The call `spectre::Exporter::interpolate_to_points<3>(…)`: one data array per
requested tensor component, in the order of the names. -/
def interpolate_to_points (ext : Externals) (filename_glob subfile_name : String)
    (observation_step : Int) (names : List String) (target_points : TargetPoints)
    (extrapolate_into_excisions : Bool) : Nat → Int → ℚ :=
  fun c => ext.field filename_glob subfile_name observation_step (names.getD c "")
    target_points extrapolate_into_excisions

/-- Body of the innermost loop that moves the interpolated data into the
MeshBlock, lines 169-180 and 186-214, for one cell `(k, j, i)` of block `m`;
`n0`, `n1` are `n[0]`, `n[1]` and `sz` is the number of entries of each data
array.  `flat_ix` is an `int`. -/
def moveCell (ext : Externals) (data : Nat → Int → ℚ) (n0 n1 sz : Int) (m k j i : Int)
    (host : HostData) : HostData :=
  let host_adm := host.adm
  let gxx := data 0
  let gyx := data 1
  let gyy := data 2
  let gzx := data 3
  let gzy := data 4
  let gzz := data 5
  let Kxx := data 6
  let Kyx := data 7
  let Kyy := data 8
  let Kzx := data 9
  let Kzy := data 10
  let Kzz := data 11
  let flat_ix := i32 (i + i32 (n0 * i32 (j + i32 (n1 * k))))
  let inRange := host.inRange && decide (0 ≤ flat_ix ∧ flat_ix < sz)
  let g := host_adm.g_dd
  let g := set6 g m 0 0 k j i (gxx flat_ix)
  let g := set6 g m 1 1 k j i (gyy flat_ix)
  let g := set6 g m 2 2 k j i (gzz flat_ix)
  let g := set6 g m 0 1 k j i (gyx flat_ix)
  let g := set6 g m 0 2 k j i (gzx flat_ix)
  let g := set6 g m 1 2 k j i (gzy flat_ix)
  let vK := host_adm.vK_dd
  let vK := set6 vK m 0 0 k j i (Kxx flat_ix)
  let vK := set6 vK m 1 1 k j i (Kyy flat_ix)
  let vK := set6 vK m 2 2 k j i (Kzz flat_ix)
  let vK := set6 vK m 0 1 k j i (Kyx flat_ix)
  let vK := set6 vK m 0 2 k j i (Kzx flat_ix)
  let vK := set6 vK m 1 2 k j i (Kzy flat_ix)
  -- Compute conformal factor such that the conformal metric has unit determinant
  let detg := ext.SpatialDet (g m 0 0 k j i) (g m 0 1 k j i) (g m 0 2 k j i)
    (g m 1 1 k j i) (g m 1 2 k j i) (g m 2 2 k j i)
  { adm := { psi4 := set4 host_adm.psi4 m k j i (ext.cbrt detg), g_dd := g, vK_dd := vK },
    inRange := inRange }

/-- The loop nest of lines 141-156: the coordinate vectors (of `sz` entries each)
are filled with the cell centres of MeshBlock `m` (whose extent is `sizem`),
ghost cells included; entry `ix_I + n[0] * (ix_J + n[1] * ix_K)` belongs to cell
`(ix_I, ix_J, ix_K)`.  All index arithmetic is `int` arithmetic; a loop
`for (ix = lo; ix < hi + 1; ix++)` runs over `lo … (hi + 1) - 1`. -/
def fillCoords (ext : Externals) (indcs : RegionIndcs) (sizem : RegionSize) (sz : Int)
    (x : Coords) : Coords :=
  let is := indcs.is
  let ie := indcs.ie
  let js := indcs.js
  let je := indcs.je
  let ks := indcs.ks
  let ke := indcs.ke
  let isg := i32 (is - indcs.ng)
  let ieg := i32 (ie + indcs.ng)
  let jsg := i32 (js - indcs.ng)
  let jeg := i32 (je + indcs.ng)
  let ksg := i32 (ks - indcs.ng)
  let keg := i32 (ke + indcs.ng)
  let nx1 := indcs.nx1
  let nx2 := indcs.nx2
  let nx3 := indcs.nx3
  let n0 := i32 (nx1 + i32 (2 * indcs.ng))
  let n1 := i32 (nx2 + i32 (2 * indcs.ng))
  let x1min := sizem.x1min
  let x1max := sizem.x1max
  let x2min := sizem.x2min
  let x2max := sizem.x2max
  let x3min := sizem.x3min
  let x3max := sizem.x3max
  forRange isg (i32 (ieg + 1) - 1) (fun ix_I x =>
    forRange jsg (i32 (jeg + 1) - 1) (fun ix_J x =>
      forRange ksg (i32 (keg + 1) - 1) (fun ix_K (x : Coords) =>
        let flat_ix := i32 (ix_I + i32 (n0 * i32 (ix_J + i32 (n1 * ix_K))))
        let x := { x with inRange := x.inRange && decide (0 ≤ flat_ix ∧ flat_ix < sz) }
        let x := { x with
          x0 := set1 x.x0 flat_ix (ext.CellCenterX (i32 (ix_I - is)) nx1 x1min x1max) }
        let x := { x with
          x1 := set1 x.x1 flat_ix (ext.CellCenterX (i32 (ix_J - js)) nx2 x2min x2max) }
        let x := { x with
          x2 := set1 x.x2 flat_ix (ext.CellCenterX (i32 (ix_K - ks)) nx3 x3min x3max) }
        x) x) x) x

/-- The loop nest of lines 182-215: the interpolated data are moved into
MeshBlock `m`, ghost cells included. -/
def moveData (ext : Externals) (indcs : RegionIndcs) (data : Nat → Int → ℚ) (sz : Int)
    (m : Int) (host : HostData) : HostData :=
  let isg := i32 (indcs.is - indcs.ng)
  let ieg := i32 (indcs.ie + indcs.ng)
  let jsg := i32 (indcs.js - indcs.ng)
  let jeg := i32 (indcs.je + indcs.ng)
  let ksg := i32 (indcs.ks - indcs.ng)
  let keg := i32 (indcs.ke + indcs.ng)
  let n0 := i32 (indcs.nx1 + i32 (2 * indcs.ng))
  let n1 := i32 (indcs.nx2 + i32 (2 * indcs.ng))
  forRange ksg keg (fun k host =>
    forRange jsg jeg (fun j host =>
      forRange isg ieg (fun i (host : HostData) =>
        moveCell ext data n0 n1 sz m k j i host) host) host) host

/-- The function `LoadSpectreInitialData(pmbp, filename_glob, subfile_name,
observation_step)`, lines 97-218.  `host_u_adm` is the content of the freshly
created host mirror; the result is what `deep_copy` leaves in `u_adm`.  There is
no result (`none`) when `sz`, an `int`, is negative, since `x[0].resize(sz)` then
throws, or when a vector was accessed out of range. -/
def LoadSpectreInitialData (ext : Externals) (pmbp : MeshBlockPack) (host_u_adm : ADMhost_vars)
    (filename_glob subfile_name : String) (observation_step : Int) : Option ADMhost_vars :=
  let host_adm : HostData := ⟨host_u_adm, true⟩
  let indcs := pmbp.mb_indcs
  let size := pmbp.mb_size
  let ncells1 := i32 (indcs.nx1 + i32 (2 * indcs.ng))
  let ncells2 := i32 (indcs.nx2 + i32 (2 * indcs.ng))
  let ncells3 := i32 (indcs.nx3 + i32 (2 * indcs.ng))
  let n0 := ncells1
  let n1 := ncells2
  let n2 := ncells3
  let sz := i32 (i32 (n0 * n1) * n2)
  -- Allocate memory for the coordinates
  if sz < 0 then none
  else
    let x : Coords := ⟨fun _ => 0, fun _ => 0, fun _ => 0, true⟩
    let nmb := pmbp.nmb_thispack
    let st := forRange 0 (nmb - 1) (fun m (st : Coords × HostData) =>
      let x := st.1
      let host_adm := st.2
      -- Get the coordinates for this meshblock
      let x := fillCoords ext indcs (size m) sz x
      -- Interpolate data to the coordinates
      let data := interpolate_to_points ext filename_glob subfile_name observation_step
        ["SpatialMetric_xx", "SpatialMetric_yx", "SpatialMetric_yy",
         "SpatialMetric_zx", "SpatialMetric_zy", "SpatialMetric_zz",
         "ExtrinsicCurvature_xx", "ExtrinsicCurvature_yx", "ExtrinsicCurvature_yy",
         "ExtrinsicCurvature_zx", "ExtrinsicCurvature_zy", "ExtrinsicCurvature_zz"]
        (x.targets sz) true
      -- Move the interpolated data into the meshblock
      let host_adm := moveData ext indcs data sz m host_adm
      (x, host_adm)) (x, host_adm)
    -- deep_copy(u_adm, host_u_adm)
    if st.1.inRange && st.2.inRange then some st.2.adm else none

/-- A 3D mesh whose coordinate vectors can be addressed with an `int`:
`is = js = ks = ng`, `ie = is + nx1 - 1`, `je = js + nx2 - 1`, `ke = ks + nx3 - 1`,
a non-negative number of ghost cells, at least one cell in each direction, and
the number of cells of a MeshBlock, ghost cells included, at most `INT_MAX`. -/
def RegionIndcs.mesh3d (c : RegionIndcs) : Prop :=
  (c.is = c.ng ∧ c.js = c.ng ∧ c.ks = c.ng) ∧
  (c.ie = c.is + c.nx1 - 1 ∧ c.je = c.js + c.nx2 - 1 ∧ c.ke = c.ks + c.nx3 - 1) ∧
  (0 ≤ c.ng ∧ 1 ≤ c.nx1 ∧ 1 ≤ c.nx2 ∧ 1 ≤ c.nx3) ∧
  (c.nx1 + 2 * c.ng) * (c.nx2 + 2 * c.ng) * (c.nx3 + 2 * c.ng) ≤ 2147483647

/-- Spec-side description of the target points of MeshBlock `m`: entry number
`p` of the coordinate vectors belongs to the cell `(i, j, k)` with
`p = i + n0 * (j + n1 * k)`, i.e. `i = p % n0`, `j = (p / n0) % n1`,
`k = p / n0 / n1`, and holds the centre of that cell. -/
def targetPointsOf (ext : Externals) (pmbp : MeshBlockPack) (m : Int) : TargetPoints :=
  let indcs := pmbp.mb_indcs
  let n0 := indcs.nx1 + 2 * indcs.ng
  let n1 := indcs.nx2 + 2 * indcs.ng
  let n2 := indcs.nx3 + 2 * indcs.ng
  let sz := n0 * n1 * n2
  let sizem := pmbp.mb_size m
  ⟨ entries sz (fun p => ext.CellCenterX (p % n0 - indcs.is) indcs.nx1 sizem.x1min sizem.x1max),
    entries sz (fun p => ext.CellCenterX (p / n0 % n1 - indcs.js) indcs.nx2 sizem.x2min sizem.x2max),
    entries sz (fun p => ext.CellCenterX (p / n0 / n1 - indcs.ks) indcs.nx3 sizem.x3min sizem.x3max) ⟩

/-- The entry number `flat_ix = i + n[0] * (j + n[1] * k)` that the loader uses for
cell `(i, j, k)`. -/
def flatIndex (indcs : RegionIndcs) (i j k : Int) : Int :=
  i + (indcs.nx1 + 2 * indcs.ng) * (j + (indcs.nx2 + 2 * indcs.ng) * k)

/-- Concrete external functions: uniform cell centres, the determinant of a
symmetric 3x3 matrix, a stand-in for the cube root, and an exporter whose value
for a component at a point is the first coordinate of the point plus the length
of the component name. -/
def demoExt : Externals :=
  { CellCenterX := fun ith nx xmin xmax => xmin + ((ith : ℚ) + 1 / 2) * (xmax - xmin) / nx,
    SpatialDet := fun gxx gxy gxz gyy gyz gzz =>
      - gxz * gxz * gyy + 2 * gxy * gxz * gyz - gxx * gyz * gyz - gxy * gxy * gzz
        + gxx * gyy * gzz,
    cbrt := fun d => d,
    field := fun _ _ _ name pts _ p => pts.x0.getD p.toNat 0 + name.length }

/-- A concrete 3D pack: one MeshBlock of `4 x 4 x 4` cells with two ghost cells,
covering the unit cube. -/
def demoPack3d : MeshBlockPack :=
  { mb_indcs := { ng := 2, nx1 := 4, nx2 := 4, nx3 := 4,
                  is := 2, ie := 5, js := 2, je := 5, ks := 2, ke := 5 },
    mb_size := fun _ => ⟨0, 1, 0, 1, 0, 1⟩,
    nmb_thispack := 1 }

/-- A 3D pack whose MeshBlocks have `1300 x 1300 x 1300` cells and two ghost
cells: `1304 * 1304 * 1304 = 2217342464` exceeds `INT_MAX`. -/
def demoPackHuge : MeshBlockPack :=
  { mb_indcs := { ng := 2, nx1 := 1300, nx2 := 1300, nx3 := 1300,
                  is := 2, ie := 1301, js := 2, je := 1301, ks := 2, ke := 1301 },
    mb_size := fun _ => ⟨0, 1, 0, 1, 0, 1⟩,
    nmb_thispack := 1 }

/-- A host mirror filled with zeros. -/
def demoHost : ADMhost_vars :=
  ⟨fun _ _ _ _ => 0, fun _ _ _ _ _ _ => 0, fun _ _ _ _ _ _ => 0⟩

end Pgen

/-! # Theorems -/

/-! ## Loops -/

theorem set1_apply (a : Int → ℚ) (i : Int) (v : ℚ) (i' : Int) :
    set1 a i v i' = if i' = i then v else a i' := rfl

theorem i32_eq (x : Int) (h : -2147483648 ≤ x ∧ x ≤ 2147483647) : i32 x = x := by
  unfold i32
  omega

theorem mem_irange (lo hi x : Int) : x ∈ irange lo hi ↔ lo ≤ x ∧ x ≤ hi := by
  unfold irange
  simp only [List.mem_map, List.mem_range]
  constructor
  · rintro ⟨t, ht, rfl⟩
    omega
  · rintro ⟨h1, h2⟩
    exact ⟨(x - lo).toNat, by omega, by omega⟩

theorem nodup_irange (lo hi : Int) : (irange lo hi).Nodup := by
  unfold irange
  refine List.Nodup.map ?_ (List.nodup_range _)
  intro a b h
  simpa using h

/-- A loop none of whose iterations changes what `rd` reads leaves it unchanged. -/
theorem foldl_untouched {ι S V : Type} (step : S → ι → S) (rd : S → V) (L : List ι)
    (hframe : ∀ i ∈ L, ∀ s, rd (step s i) = rd s) (init : S) :
    rd (L.foldl step init) = rd init := by
  induction L generalizing init with
  | nil => rfl
  | cons a L ih =>
    rw [List.foldl_cons, ih (fun i hi s => hframe i (List.mem_cons_of_mem _ hi) s)]
    exact hframe a (List.mem_cons_self _ _) init

/-- A loop over distinct indices in which only iteration `i0` changes what `rd`
reads, and changes it by `F`, changes it by `F` exactly once. -/
theorem foldl_once {ι S V : Type} (step : S → ι → S) (rd : S → V) (F : V → V) (L : List ι)
    (i0 : ι) (hmem : i0 ∈ L) (hnd : L.Nodup)
    (hframe : ∀ i ∈ L, i ≠ i0 → ∀ s, rd (step s i) = rd s)
    (hhit : ∀ s, rd (step s i0) = F (rd s)) (init : S) :
    rd (L.foldl step init) = F (rd init) := by
  induction L generalizing init with
  | nil => cases hmem
  | cons a L ih =>
    rw [List.foldl_cons]
    rw [List.nodup_cons] at hnd
    by_cases ha : a = i0
    · subst ha
      rw [foldl_untouched step rd L ?_ (step init a), hhit]
      intro i hi s
      refine hframe i (List.mem_cons_of_mem _ hi) ?_ s
      rintro rfl
      exact hnd.1 hi
    · have hm : i0 ∈ L := by
        rcases List.mem_cons.1 hmem with h | h
        · exact absurd h.symm ha
        · exact h
      rw [ih hm hnd.2 (fun i hi => hframe i (List.mem_cons_of_mem _ hi)),
        hframe a (List.mem_cons_self _ _) ha]

theorem forRange_untouched {S V : Type} (lo hi : Int) (body : Int → S → S) (rd : S → V)
    (hframe : ∀ i, lo ≤ i → i ≤ hi → ∀ s, rd (body i s) = rd s) (init : S) :
    rd (forRange lo hi body init) = rd init := by
  unfold forRange
  refine foldl_untouched (fun acc i => body i acc) rd _ ?_ init
  intro i hi s
  rw [mem_irange] at hi
  exact hframe i hi.1 hi.2 s

theorem forRange_once {S V : Type} (lo hi : Int) (body : Int → S → S) (rd : S → V)
    (F : V → V) (i0 : Int) (h1 : lo ≤ i0) (h2 : i0 ≤ hi)
    (hframe : ∀ i, lo ≤ i → i ≤ hi → i ≠ i0 → ∀ s, rd (body i s) = rd s)
    (hhit : ∀ s, rd (body i0 s) = F (rd s)) (init : S) :
    rd (forRange lo hi body init) = F (rd init) := by
  unfold forRange
  refine foldl_once (fun acc i => body i acc) rd F _ i0 ((mem_irange _ _ _).2 ⟨h1, h2⟩)
    (nodup_irange _ _) ?_ hhit init
  intro i hi hne s
  rw [mem_irange] at hi
  exact hframe i hi.1 hi.2 hne s

/-- A triple loop nest none of whose iterations changes what `rd` reads. -/
theorem forRange3_untouched {S V : Type} (l1 u1 l2 u2 l3 u3 : Int)
    (body : Int → Int → Int → S → S) (rd : S → V)
    (hframe : ∀ a b c, (l1 ≤ a ∧ a ≤ u1) → (l2 ≤ b ∧ b ≤ u2) → (l3 ≤ c ∧ c ≤ u3) →
      ∀ s, rd (body a b c s) = rd s) (init : S) :
    rd (forRange l1 u1 (fun a s => forRange l2 u2 (fun b s =>
      forRange l3 u3 (fun c s => body a b c s) s) s) init) = rd init := by
  refine forRange_untouched l1 u1 _ rd ?_ init
  intro a ha1 ha2 s
  refine forRange_untouched l2 u2 _ rd ?_ s
  intro b hb1 hb2 s
  refine forRange_untouched l3 u3 _ rd ?_ s
  intro c hc1 hc2 s
  exact hframe a b c ⟨ha1, ha2⟩ ⟨hb1, hb2⟩ ⟨hc1, hc2⟩ s

/-- A triple loop nest in which only iteration `(a0, b0, c0)` changes what `rd`
reads, and changes it by `F`. -/
theorem forRange3_once {S V : Type} (l1 u1 l2 u2 l3 u3 : Int)
    (body : Int → Int → Int → S → S) (rd : S → V) (F : V → V) (a0 b0 c0 : Int)
    (ha : l1 ≤ a0 ∧ a0 ≤ u1) (hb : l2 ≤ b0 ∧ b0 ≤ u2) (hc : l3 ≤ c0 ∧ c0 ≤ u3)
    (hframe : ∀ a b c, (l1 ≤ a ∧ a ≤ u1) → (l2 ≤ b ∧ b ≤ u2) → (l3 ≤ c ∧ c ≤ u3) →
      ¬ (a = a0 ∧ b = b0 ∧ c = c0) → ∀ s, rd (body a b c s) = rd s)
    (hhit : ∀ s, rd (body a0 b0 c0 s) = F (rd s)) (init : S) :
    rd (forRange l1 u1 (fun a s => forRange l2 u2 (fun b s =>
      forRange l3 u3 (fun c s => body a b c s) s) s) init) = F (rd init) := by
  refine forRange_once l1 u1 _ rd F a0 ha.1 ha.2 ?_ ?_ init
  · intro a ha1 ha2 hne s
    refine forRange_untouched l2 u2 _ rd ?_ s
    intro b hb1 hb2 s
    refine forRange_untouched l3 u3 _ rd ?_ s
    intro c hc1 hc2 s
    exact hframe a b c ⟨ha1, ha2⟩ ⟨hb1, hb2⟩ ⟨hc1, hc2⟩ (fun h => hne h.1) s
  · intro s
    refine forRange_once l2 u2 _ rd F b0 hb.1 hb.2 ?_ ?_ s
    · intro b hb1 hb2 hne s
      refine forRange_untouched l3 u3 _ rd ?_ s
      intro c hc1 hc2 s
      exact hframe a0 b c ha ⟨hb1, hb2⟩ ⟨hc1, hc2⟩ (fun h => hne h.2.1) s
    · intro s
      refine forRange_once l3 u3 _ rd F c0 hc.1 hc.2 ?_ hhit s
      intro c hc1 hc2 hne s
      exact hframe a0 b0 c ha hb ⟨hc1, hc2⟩ (fun h => hne h.2.2) s

/-- A loop in which a flag, once down, stays down, started with the flag down. -/
theorem foldl_flag_stays_down {ι S : Type} (step : S → ι → S) (flag : S → Bool) (L : List ι)
    (hmono : ∀ i s, flag s = false → flag (step s i) = false)
    (init : S) (h : flag init = false) : flag (L.foldl step init) = false := by
  induction L generalizing init with
  | nil => exact h
  | cons a L ih =>
    rw [List.foldl_cons]
    exact ih _ (hmono a init h)

/-- A loop in which a flag, once down, stays down, and in which some iteration
always lowers it, ends with the flag down. -/
theorem foldl_flag_down {ι S : Type} (step : S → ι → S) (flag : S → Bool) (L : List ι)
    (hmono : ∀ i s, flag s = false → flag (step s i) = false)
    (i0 : ι) (hmem : i0 ∈ L) (hdown : ∀ s, flag (step s i0) = false) (init : S) :
    flag (L.foldl step init) = false := by
  induction L generalizing init with
  | nil => cases hmem
  | cons a L ih =>
    rw [List.foldl_cons]
    rcases List.mem_cons.1 hmem with h | h
    · subst h
      exact foldl_flag_stays_down step flag L hmono _ (hdown init)
    · exact ih h _

theorem forRange_flag_stays_down {S : Type} (lo hi : Int) (body : Int → S → S)
    (flag : S → Bool) (hmono : ∀ i s, flag s = false → flag (body i s) = false)
    (init : S) (h : flag init = false) : flag (forRange lo hi body init) = false := by
  unfold forRange
  exact foldl_flag_stays_down (fun acc i => body i acc) flag _ hmono init h

theorem forRange_flag_down {S : Type} (lo hi : Int) (body : Int → S → S) (flag : S → Bool)
    (hmono : ∀ i s, flag s = false → flag (body i s) = false)
    (i0 : Int) (h1 : lo ≤ i0) (h2 : i0 ≤ hi) (hdown : ∀ s, flag (body i0 s) = false)
    (init : S) : flag (forRange lo hi body init) = false := by
  unfold forRange
  exact foldl_flag_down (fun acc i => body i acc) flag _ hmono i0
    ((mem_irange _ _ _).2 ⟨h1, h2⟩) hdown init

/-! ## Task list engine -/

namespace Sched

/-- A Task whose dependencies are not all in the completion-mask is passed over:
neither invoked nor marked complete, the state is untouched. -/
theorem visit_not_ready {σ : Type} (s : PassState σ) (t : Task σ)
    (h : ¬ t.deps ⊆ s.mask) : visit s t = s := by
  unfold visit ready
  by_cases hf : s.failed = true
  · simp [hf]
  · by_cases hm : t.id ∈ s.mask
    · simp [hm]
    · simp [hf, hm, h]

/-- Every recorded invocation was made with all dependencies in the mask of that
moment, which is part of the present mask, and every TaskID of the present mask
was put there by an invocation that answered `complete`. -/
theorem visit_inv {σ : Type} (tasks : List (Task σ)) (s : PassState σ) (t : Task σ)
    (ht : t ∈ tasks)
    (h1 : ∀ e ∈ s.log, (∃ t ∈ tasks, t.id = e.id ∧ t.deps = e.deps) ∧
      e.deps ⊆ e.maskAtCall ∧ e.maskAtCall ⊆ s.mask)
    (h2 : ∀ id ∈ s.mask, ∃ e ∈ s.log, e.id = id ∧ e.status = TaskStatus.complete) :
    (∀ e ∈ (visit s t).log, (∃ t ∈ tasks, t.id = e.id ∧ t.deps = e.deps) ∧
      e.deps ⊆ e.maskAtCall ∧ e.maskAtCall ⊆ (visit s t).mask) ∧
    (∀ id ∈ (visit s t).mask, ∃ e ∈ (visit s t).log,
      e.id = id ∧ e.status = TaskStatus.complete) := by
  by_cases hr : t.deps ⊆ s.mask
  swap
  · rw [visit_not_ready s t hr]
    exact ⟨h1, h2⟩
  unfold visit ready
  by_cases hf : s.failed = true
  · simp only [hf, if_true]
    exact ⟨h1, h2⟩
  by_cases hm : t.id ∈ s.mask
  · simp only [hf, hm, if_true, if_false]
    exact ⟨h1, h2⟩
  simp only [hf, hm, hr, decide_True, if_true, if_false]
  have hnew : ∀ st : TaskStatus, ∀ M : Finset TaskID, s.mask ⊆ M →
      ∀ e ∈ s.log ++ [(⟨t.id, t.deps, s.mask, st⟩ : Invocation)],
        (∃ t ∈ tasks, t.id = e.id ∧ t.deps = e.deps) ∧
        e.deps ⊆ e.maskAtCall ∧ e.maskAtCall ⊆ M := by
    intro st M hM e he
    rcases List.mem_append.1 he with he | he
    · obtain ⟨a, b, c⟩ := h1 e he
      exact ⟨a, b, c.trans hM⟩
    · rw [List.mem_singleton] at he
      subst he
      exact ⟨⟨t, ht, rfl, rfl⟩, hr, hM⟩
  cases hop : (t.op s.world).1 with
  | complete =>
    refine ⟨hnew _ _ (Finset.subset_insert _ _), ?_⟩
    intro id hid
    rcases Finset.mem_insert.1 hid with h | h
    · exact ⟨_, List.mem_append_right _ (List.mem_singleton_self _), h.symm, rfl⟩
    · obtain ⟨e, he, a, b⟩ := h2 id h
      exact ⟨e, List.mem_append_left _ he, a, b⟩
  | incomplete =>
    refine ⟨hnew _ _ (Finset.Subset.refl _), ?_⟩
    intro id hid
    obtain ⟨e, he, a, b⟩ := h2 id hid
    exact ⟨e, List.mem_append_left _ he, a, b⟩
  | fail =>
    refine ⟨hnew _ _ (Finset.Subset.refl _), ?_⟩
    intro id hid
    obtain ⟨e, he, a, b⟩ := h2 id hid
    exact ⟨e, List.mem_append_left _ he, a, b⟩

theorem doAvailableTasks_inv {σ : Type} (tasks : List (Task σ)) (pass : List (Task σ))
    (hsub : ∀ t ∈ pass, t ∈ tasks) (s : PassState σ)
    (h1 : ∀ e ∈ s.log, (∃ t ∈ tasks, t.id = e.id ∧ t.deps = e.deps) ∧
      e.deps ⊆ e.maskAtCall ∧ e.maskAtCall ⊆ s.mask)
    (h2 : ∀ id ∈ s.mask, ∃ e ∈ s.log, e.id = id ∧ e.status = TaskStatus.complete) :
    (∀ e ∈ (doAvailableTasks pass s).log, (∃ t ∈ tasks, t.id = e.id ∧ t.deps = e.deps) ∧
      e.deps ⊆ e.maskAtCall ∧ e.maskAtCall ⊆ (doAvailableTasks pass s).mask) ∧
    (∀ id ∈ (doAvailableTasks pass s).mask, ∃ e ∈ (doAvailableTasks pass s).log,
      e.id = id ∧ e.status = TaskStatus.complete) := by
  induction pass generalizing s with
  | nil => exact ⟨h1, h2⟩
  | cons t pass ih =>
    have hv := visit_inv tasks s t (hsub t (List.mem_cons_self _ _)) h1 h2
    exact ih (fun u hu => hsub u (List.mem_cons_of_mem _ hu)) (visit s t) hv.1 hv.2

theorem runStage_inv {σ : Type} (tl : TaskList σ) (w : σ) (n : Nat) :
    (∀ e ∈ (runStage tl w n).log, (∃ t ∈ tl.tasks, t.id = e.id ∧ t.deps = e.deps) ∧
      e.deps ⊆ e.maskAtCall ∧ e.maskAtCall ⊆ (runStage tl w n).mask) ∧
    (∀ id ∈ (runStage tl w n).mask, ∃ e ∈ (runStage tl w n).log,
      e.id = id ∧ e.status = TaskStatus.complete) := by
  induction n with
  | zero =>
    constructor
    · intro e he
      simp [runStage, stageStart] at he
    · intro id hid
      simp [runStage, stageStart] at hid
  | succ n ih =>
    exact doAvailableTasks_inv tl.tasks tl.tasks (fun _ h => h) _ ih.1 ih.2

/-- C1. In any sequence of `n` passes over a task list within one stage
(completion-mask cleared at the start): (1) a Task whose dependency set is not
contained in the current completion-mask is passed over by the scheduler, its
operator is not invoked and it is not marked complete, the whole state is left
as it was; (2) every operator invocation that took place was of a Task of the
list whose dependencies were all in the completion-mask at the moment of the
call, and that mask is part of the present mask of the stage; (3) every TaskID
in the completion-mask was put there by such an invocation answering
`complete`, so all its dependencies had been marked complete before, in the
same stage. -/
theorem C1_dependencies_complete_before_run {σ : Type} (tl : TaskList σ) (w : σ) (n : Nat) :
    (∀ t : Task σ, ¬ t.deps ⊆ (runStage tl w n).mask →
      visit (runStage tl w n) t = runStage tl w n) ∧
    (∀ e ∈ (runStage tl w n).log, (∃ t ∈ tl.tasks, t.id = e.id ∧ t.deps = e.deps) ∧
      e.deps ⊆ e.maskAtCall ∧ e.maskAtCall ⊆ (runStage tl w n).mask) ∧
    (∀ id ∈ (runStage tl w n).mask, ∃ e ∈ (runStage tl w n).log,
      e.id = id ∧ e.status = TaskStatus.complete ∧ e.deps ⊆ e.maskAtCall ∧
      e.maskAtCall ⊆ (runStage tl w n).mask) := by
  refine ⟨fun t h => visit_not_ready _ t h, (runStage_inv tl w n).1, ?_⟩
  intro id hid
  obtain ⟨e, he, a, b⟩ := (runStage_inv tl w n).2 id hid
  obtain ⟨_, c, d⟩ := (runStage_inv tl w n).1 e he
  exact ⟨e, he, a, b, c, d⟩

end Sched

/-! ## The `IonNeutral` declaration -/

namespace IonNeutralDecl

/-- C2. Class `IonNeutral` exposes exactly one assembly operation; it is
`AssembleIonNeutralTasks`, it returns `void`, and its parameter list is exactly
the three TaskLists `start`, `run`, `end`, each taken by mutable reference.  The
member functions returning a `TaskStatus` are exactly `FirstTwoImpRK` and
`ImpRKUpdate`, both public, and each takes exactly a `Driver*` followed by an
`int` (the stage index). -/
theorem C2_ion_neutral_assembly_contract :
    IonNeutral.filter Member.isAssembly =
      [ Member.method Access.pub ⟨CType.void, Passing.byValue⟩ "AssembleIonNeutralTasks"
          [ ⟨⟨CType.TaskList, Passing.mutRef⟩, "start"⟩,
            ⟨⟨CType.TaskList, Passing.mutRef⟩, "run"⟩,
            ⟨⟨CType.TaskList, Passing.mutRef⟩, "end"⟩ ] ] ∧
    (IonNeutral.filter Member.isTaskOperator).map Member.methodName =
      ["FirstTwoImpRK", "ImpRKUpdate"] ∧
    (IonNeutral.filter Member.isTaskOperator).all (fun d =>
      d.isPublicMethod &&
      decide (d.paramTypes = [⟨CType.Driver, Passing.pointer⟩, ⟨CType.int, Passing.byValue⟩]) &&
      decide (d.returnType = some ⟨CType.TaskStatus, Passing.byValue⟩)) = true := by
  refine ⟨?_, ?_, ?_⟩ <;> decide

end IonNeutralDecl

/-! ## Viscosity: the constructor -/

namespace Diffusion

theorem stdMin_eq_min (a b : ℚ) : stdMin a b = min a b := by
  unfold stdMin
  split_ifs with h
  · exact (min_eq_right h.le).symm
  · exact (min_eq_left (not_lt.1 h)).symm

/-- One iteration of the timestep loop of the constructor. -/
theorem dt_step_props (pm : Mesh) (size : MeshBlockSize) (fac nu : ℚ) (m : Int) (acc r : ℚ)
    (hr : r = (if pm.three_d then
        stdMin (if pm.multi_d then stdMin (stdMin acc (fac * SQR (size.dx1.h_view m) / nu))
            (fac * SQR (size.dx2.h_view m) / nu)
          else stdMin acc (fac * SQR (size.dx1.h_view m) / nu))
          (fac * SQR (size.dx3.h_view m) / nu)
      else (if pm.multi_d then stdMin (stdMin acc (fac * SQR (size.dx1.h_view m) / nu))
            (fac * SQR (size.dx2.h_view m) / nu)
          else stdMin acc (fac * SQR (size.dx1.h_view m) / nu)))) :
    r ≤ acc ∧
    (∀ d : Fin 3, (d = 0 ∨ (d = 1 ∧ pm.multi_d = true) ∨ (d = 2 ∧ pm.three_d = true)) →
      r ≤ fac * SQR (dxOf size d m) / nu) ∧
    (r = acc ∨ ∃ d : Fin 3, (d = 0 ∨ (d = 1 ∧ pm.multi_d = true) ∨ (d = 2 ∧ pm.three_d = true)) ∧
      r = fac * SQR (dxOf size d m) / nu) := by
  simp only [stdMin_eq_min] at hr
  subst hr
  have c0 : ∀ a b : ℚ, min a b = a ∨ min a b = b := min_choice
  cases h3 : pm.three_d <;> cases hm : pm.multi_d <;>
    simp only [if_true, if_false, Bool.false_eq_true] <;>
    refine ⟨?_, ?_, ?_⟩
  · exact min_le_left _ _
  · rintro d (rfl | ⟨rfl, h⟩ | ⟨rfl, h⟩)
    · exact min_le_right _ _
    · cases h
    · cases h
  · rcases c0 acc (fac * SQR (size.dx1.h_view m) / nu) with h | h
    · exact Or.inl h
    · exact Or.inr ⟨0, Or.inl rfl, h⟩
  · exact (min_le_left _ _).trans (min_le_left _ _)
  · rintro d (rfl | ⟨rfl, _⟩ | ⟨rfl, h⟩)
    · exact (min_le_left _ _).trans (min_le_right _ _)
    · exact min_le_right _ _
    · cases h
  · rcases c0 (min acc (fac * SQR (size.dx1.h_view m) / nu))
      (fac * SQR (size.dx2.h_view m) / nu) with h | h
    · rw [h]
      rcases c0 acc (fac * SQR (size.dx1.h_view m) / nu) with h | h
      · exact Or.inl h
      · exact Or.inr ⟨0, Or.inl rfl, h⟩
    · exact Or.inr ⟨1, Or.inr (Or.inl ⟨rfl, trivial⟩), h⟩
  · exact (min_le_left _ _).trans (min_le_left _ _)
  · rintro d (rfl | ⟨rfl, h⟩ | ⟨rfl, _⟩)
    · exact (min_le_left _ _).trans (min_le_right _ _)
    · cases h
    · exact min_le_right _ _
  · rcases c0 (min acc (fac * SQR (size.dx1.h_view m) / nu))
      (fac * SQR (size.dx3.h_view m) / nu) with h | h
    · rw [h]
      rcases c0 acc (fac * SQR (size.dx1.h_view m) / nu) with h | h
      · exact Or.inl h
      · exact Or.inr ⟨0, Or.inl rfl, h⟩
    · exact Or.inr ⟨2, Or.inr (Or.inr ⟨rfl, trivial⟩), h⟩
  · exact ((min_le_left _ _).trans (min_le_left _ _)).trans (min_le_left _ _)
  · rintro d (rfl | ⟨rfl, _⟩ | ⟨rfl, _⟩)
    · exact ((min_le_left _ _).trans (min_le_left _ _)).trans (min_le_right _ _)
    · exact (min_le_left _ _).trans (min_le_right _ _)
    · exact min_le_right _ _
  · rcases c0 (min (min acc (fac * SQR (size.dx1.h_view m) / nu))
      (fac * SQR (size.dx2.h_view m) / nu)) (fac * SQR (size.dx3.h_view m) / nu) with h | h
    · rw [h]
      rcases c0 (min acc (fac * SQR (size.dx1.h_view m) / nu))
        (fac * SQR (size.dx2.h_view m) / nu) with h | h
      · rw [h]
        rcases c0 acc (fac * SQR (size.dx1.h_view m) / nu) with h | h
        · exact Or.inl h
        · exact Or.inr ⟨0, Or.inl rfl, h⟩
      · exact Or.inr ⟨1, Or.inr (Or.inl ⟨rfl, trivial⟩), h⟩
    · exact Or.inr ⟨2, Or.inr (Or.inr ⟨rfl, trivial⟩), h⟩

/-- The timestep loop over a list of MeshBlocks: the result is below the start
value and below every candidate of every visited block, and it is the start
value or one of those candidates. -/
theorem dt_loop_props (pm : Mesh) (size : MeshBlockSize) (fac nu : ℚ) (L : List Int) (d0 : ℚ) :
    let step := fun (dtnew : ℚ) (m : Int) =>
      (if pm.three_d then
        stdMin (if pm.multi_d then stdMin (stdMin dtnew (fac * SQR (size.dx1.h_view m) / nu))
            (fac * SQR (size.dx2.h_view m) / nu)
          else stdMin dtnew (fac * SQR (size.dx1.h_view m) / nu))
          (fac * SQR (size.dx3.h_view m) / nu)
      else (if pm.multi_d then stdMin (stdMin dtnew (fac * SQR (size.dx1.h_view m) / nu))
            (fac * SQR (size.dx2.h_view m) / nu)
          else stdMin dtnew (fac * SQR (size.dx1.h_view m) / nu)))
    L.foldl step d0 ≤ d0 ∧
    (∀ m ∈ L, ∀ d : Fin 3,
      (d = 0 ∨ (d = 1 ∧ pm.multi_d = true) ∨ (d = 2 ∧ pm.three_d = true)) →
      L.foldl step d0 ≤ fac * SQR (dxOf size d m) / nu) ∧
    (L.foldl step d0 = d0 ∨ ∃ m ∈ L, ∃ d : Fin 3,
      (d = 0 ∨ (d = 1 ∧ pm.multi_d = true) ∨ (d = 2 ∧ pm.three_d = true)) ∧
      L.foldl step d0 = fac * SQR (dxOf size d m) / nu) := by
  intro step
  induction L generalizing d0 with
  | nil => simp
  | cons a L ih =>
    obtain ⟨s1, s2, s3⟩ := dt_step_props pm size fac nu a d0 (step d0 a) rfl
    obtain ⟨i1, i2, i3⟩ := ih (step d0 a)
    rw [List.foldl_cons]
    refine ⟨i1.trans s1, ?_, ?_⟩
    · intro m hm d hd
      rcases List.mem_cons.1 hm with rfl | hm
      · exact i1.trans (s2 d hd)
      · exact i2 m hm d hd
    · rcases i3 with h | ⟨m, hm, d, hd, h⟩
      · rw [h]
        rcases s3 with h | ⟨d, hd, h⟩
        · exact Or.inl h
        · exact Or.inr ⟨a, List.mem_cons_self _ _, d, hd, h⟩
      · exact Or.inr ⟨m, List.mem_cons_of_mem _ hm, d, hd, h⟩

/-- Under consistent dimension flags the directions the code visits are the
active directions of the spec, and the factor is the factor of the spec. -/
theorem dirs_of_consistent (pm : Mesh) (hc : pm.consistent) (d : Fin 3) :
    (d = 0 ∨ (d = 1 ∧ pm.multi_d = true) ∨ (d = 2 ∧ pm.three_d = true)) ↔ d ∈ specDirs pm := by
  obtain ⟨h, hm⟩ := hc
  unfold specDirs
  rcases h with ⟨h1, h2, h3⟩ | ⟨h1, h2, h3⟩ | ⟨h1, h2, h3⟩
  · have : pm.multi_d = false := by
      cases hmd : pm.multi_d
      · rfl
      · rw [hm.1 hmd] at h1; cases h1
    simp [h1, h2, h3, this]
  · have : pm.multi_d = true := hm.2 h1
    simp [h1, h2, h3, this]
  · have : pm.multi_d = true := hm.2 h1
    simp [h1, h2, h3, this]

theorem fac_of_consistent (pm : Mesh) (hc : pm.consistent) :
    (if pm.three_d then (1 / 6 : ℚ) else if pm.two_d then 1 / 4 else 1 / 2) = specFac pm := by
  obtain ⟨h, _⟩ := hc
  unfold specFac
  rcases h with ⟨h1, h2, h3⟩ | ⟨h1, h2, h3⟩ | ⟨h1, h2, h3⟩ <;> simp [h1, h2, h3]

theorem specFac_pos (pm : Mesh) : 0 < specFac pm := by
  unfold specFac
  split_ifs <;> norm_num

/-- The constructor, once `GetReal` has returned `nu`: the object it builds. -/
theorem ctor_of_GetReal (block : String) (pp : MeshBlockPack) (pin : ParameterInput) (nu : ℚ)
    (hget : pin.GetReal block "viscosity" = some nu) :
    Viscosity.ctor block pp pin = some
      { pmy_pack := pp, nu := nu,
        dtnew := (irange 0 (pp.nmb_thispack - 1)).foldl (fun (dtnew : ℚ) (m : Int) =>
          (if pp.pmesh.three_d then
            stdMin (if pp.pmesh.multi_d then
                stdMin (stdMin dtnew
                  ((if pp.pmesh.three_d then (1 / 6 : ℚ) else if pp.pmesh.two_d then 1 / 4
                    else 1 / 2) * SQR (pp.mbsize.dx1.h_view m) / nu))
                  ((if pp.pmesh.three_d then (1 / 6 : ℚ) else if pp.pmesh.two_d then 1 / 4
                    else 1 / 2) * SQR (pp.mbsize.dx2.h_view m) / nu)
              else stdMin dtnew
                  ((if pp.pmesh.three_d then (1 / 6 : ℚ) else if pp.pmesh.two_d then 1 / 4
                    else 1 / 2) * SQR (pp.mbsize.dx1.h_view m) / nu))
              ((if pp.pmesh.three_d then (1 / 6 : ℚ) else if pp.pmesh.two_d then 1 / 4
                else 1 / 2) * SQR (pp.mbsize.dx3.h_view m) / nu)
          else (if pp.pmesh.multi_d then
                stdMin (stdMin dtnew
                  ((if pp.pmesh.three_d then (1 / 6 : ℚ) else if pp.pmesh.two_d then 1 / 4
                    else 1 / 2) * SQR (pp.mbsize.dx1.h_view m) / nu))
                  ((if pp.pmesh.three_d then (1 / 6 : ℚ) else if pp.pmesh.two_d then 1 / 4
                    else 1 / 2) * SQR (pp.mbsize.dx2.h_view m) / nu)
              else stdMin dtnew
                  ((if pp.pmesh.three_d then (1 / 6 : ℚ) else if pp.pmesh.two_d then 1 / 4
                    else 1 / 2) * SQR (pp.mbsize.dx1.h_view m) / nu)))) FLT_MAX } := by
  unfold Viscosity.ctor
  rw [hget]
  rfl

/-- C3. For a pack with at least one MeshBlock, positive `nu` and consistent
dimension flags, the constructor succeeds (given that the configuration holds
`nu`) and sets `dtnew` to
`min(FLT_MAX, fac * min over blocks m and active directions d of dx_d(m)^2 / nu)`
with `fac = 1/2, 1/4, 1/6` and the directions x1; x1, x2; x1, x2, x3 in 1D, 2D,
3D; in particular `dtnew ≤ fac * dx_d(m)^2 / nu` for every block and active
direction. -/
theorem C3_viscous_timestep (block : String) (pp : MeshBlockPack) (pin : ParameterInput)
    (nu : ℚ) (hget : pin.GetReal block "viscosity" = some nu) (hnu : 0 < nu)
    (hnmb : 1 ≤ pp.nmb_thispack) (hc : pp.pmesh.consistent) :
    ∃ v, Viscosity.ctor block pp pin = some v ∧ v.nu = nu ∧
      v.dtnew = specDtnew pp nu hnmb ∧
      ∀ m, 0 ≤ m → m < pp.nmb_thispack → ∀ d ∈ specDirs pp.pmesh,
        v.dtnew ≤ specFac pp.pmesh * (dxOf pp.mbsize d m) ^ 2 / nu := by
  have _ := hnu
  refine ⟨_, ctor_of_GetReal block pp pin nu hget, rfl, ?_⟩
  obtain ⟨p1, p2, p3⟩ := dt_loop_props pp.pmesh pp.mbsize
    (if pp.pmesh.three_d then (1 / 6 : ℚ) else if pp.pmesh.two_d then 1 / 4 else 1 / 2) nu
    (irange 0 (pp.nmb_thispack - 1)) FLT_MAX
  simp only [fac_of_consistent pp.pmesh hc, dirs_of_consistent pp.pmesh hc, mem_irange, SQR,
    ← pow_two] at p1 p2 p3 ⊢
  have hle : ∀ m, 0 ≤ m → m < pp.nmb_thispack → ∀ d ∈ specDirs pp.pmesh, _ ≤
      specFac pp.pmesh * (dxOf pp.mbsize d m) ^ 2 / nu :=
    fun m h0 h1 d hd => p2 m ⟨h0, by omega⟩ d hd
  refine ⟨?_, hle⟩
  unfold specDtnew
  apply le_antisymm
  · refine le_min p1 ?_
    obtain ⟨x, hx, hxe⟩ := Finset.exists_mem_eq_inf'
      (Finset.Nonempty.product (Finset.nonempty_Ico.2 (by omega : (0 : Int) < pp.nmb_thispack))
        (by unfold specDirs; split_ifs <;> simp : (specDirs pp.pmesh).Nonempty))
      (fun md : Int × Fin 3 => (dxOf pp.mbsize md.2 md.1) ^ 2 / nu)
    rw [hxe]
    rw [Finset.mem_product, Finset.mem_Ico] at hx
    rw [← mul_div_assoc]
    exact hle x.1 hx.1.1 hx.1.2 x.2 hx.2
  · rcases p3 with h | ⟨m, hm, d, hd, h⟩
    · rw [h]
      exact min_le_left _ _
    · rw [h]
      refine (min_le_right _ _).trans ?_
      rw [mul_div_assoc]
      refine mul_le_mul_of_nonneg_left ?_ (specFac_pos _).le
      have hmem : (m, d) ∈ Finset.Ico 0 pp.nmb_thispack ×ˢ specDirs pp.pmesh :=
        Finset.mem_product.2 ⟨Finset.mem_Ico.2 ⟨hm.1, by have := hm.2; omega⟩, hd⟩
      exact Finset.inf'_le (fun md : Int × Fin 3 => (dxOf pp.mbsize md.2 md.1) ^ 2 / nu) hmem

/-- Witness of C3: the 2D pack `demoPack2d` with `nu = 1/2` read from the
`hydro` section of `demoInput`. -/
theorem C3_viscous_timestep_witness :
    demoInput.GetReal "hydro" "viscosity" = some (1 / 2) ∧ (0 : ℚ) < 1 / 2 ∧
    1 ≤ demoPack2d.nmb_thispack ∧ demoPack2d.pmesh.consistent ∧
    ∃ v, Viscosity.ctor "hydro" demoPack2d demoInput = some v ∧ v.nu = 1 / 2 ∧
      v.dtnew = specDtnew demoPack2d (1 / 2) (by decide) ∧
      ∀ m, 0 ≤ m → m < demoPack2d.nmb_thispack → ∀ d ∈ specDirs demoPack2d.pmesh,
        v.dtnew ≤ specFac demoPack2d.pmesh * (dxOf demoPack2d.mbsize d m) ^ 2 / (1 / 2) :=
  ⟨rfl, by norm_num, by decide, by unfold Mesh.consistent; decide,
    C3_viscous_timestep "hydro" demoPack2d demoInput (1 / 2) rfl (by norm_num)
      (by decide) (by unfold Mesh.consistent; decide)⟩

/-- C6. The constructor sets `nu` to the value stored in the configuration under
the section `block` and the key `"viscosity"`: it yields an object exactly when
such an entry exists, `nu` is then the value of the first such entry, and when
there is no such entry it yields no object at all (no default is substituted,
whatever else the configuration holds). -/
theorem C6_nu_from_configuration_without_default (block : String) (pp : MeshBlockPack)
    (pin : ParameterInput) :
    (∀ v, Viscosity.ctor block pp pin = some v →
      ∃ e ∈ pin.entries, e.1 = block ∧ e.2.1 = "viscosity" ∧ v.nu = e.2.2 ∧
        pin.GetReal block "viscosity" = some e.2.2) ∧
    ((∃ e ∈ pin.entries, e.1 = block ∧ e.2.1 = "viscosity") →
      ∃ v, Viscosity.ctor block pp pin = some v) ∧
    ((∀ e ∈ pin.entries, ¬ (e.1 = block ∧ e.2.1 = "viscosity")) →
      Viscosity.ctor block pp pin = none) := by
  cases hf : pin.entries.find? (fun e => e.1 == block && e.2.1 == "viscosity") with
  | none =>
    have hget : pin.GetReal block "viscosity" = none := by
      unfold ParameterInput.GetReal
      rw [hf]
      rfl
    have hctor : Viscosity.ctor block pp pin = none := by
      unfold Viscosity.ctor
      rw [hget]
    rw [List.find?_eq_none] at hf
    refine ⟨?_, ?_, fun _ => hctor⟩
    · intro v hv
      rw [hctor] at hv
      cases hv
    · rintro ⟨e, he, h1, h2⟩
      exact absurd (by simp [h1, h2]) (hf e he)
  | some e0 =>
    have hget : pin.GetReal block "viscosity" = some e0.2.2 := by
      unfold ParameterInput.GetReal
      rw [hf]
      rfl
    have hp := List.find?_some hf
    have hmem := List.mem_of_find?_eq_some hf
    simp only [Bool.and_eq_true, beq_iff_eq] at hp
    have hctor := ctor_of_GetReal block pp pin e0.2.2 hget
    refine ⟨?_, fun _ => ⟨_, hctor⟩, ?_⟩
    · intro v hv
      rw [hctor] at hv
      cases hv
      exact ⟨e0, hmem, hp.1, hp.2, rfl, hget⟩
    · intro h
      exact absurd hp (h e0 hmem)

/-! ## Viscosity: the viscous flux -/

theorem store5_flag_stays_down (extent1 : Int) (s : Written5D) (m n k j i : Int) (v : ℚ)
    (h : s.inRange = false) : (store5 extent1 s m n k j i v).inRange = false := by
  unfold store5
  split_ifs
  · exact h
  · rfl

/-- A team of `visc1` that starts after an out-of-range access ends after one. -/
theorem visc1_flag_stays_down (pk : MeshBlockPack) (ix : VariableIndex) (extent1 : Int)
    (w0 : DvceArray5D) (nu : ℚ) (m k j : Int) (s : Written5D) (h : s.inRange = false) :
    (visc1 pk ix extent1 w0 nu m k j s).inRange = false := by
  unfold visc1
  refine forRange_flag_stays_down _ _ _ (fun s : Written5D => s.inRange) ?_ _ ?_
  · intro i s hs
    by_cases he : extent1 = ix.IEN
    · simp only [he, if_true]
      exact store5_flag_stays_down _ _ _ _ _ _ _ _ (store5_flag_stays_down _ _ _ _ _ _ _ _
        (store5_flag_stays_down _ _ _ _ _ _ _ _ (store5_flag_stays_down _ _ _ _ _ _ _ _ hs)))
    · simp only [he, if_false]
      exact store5_flag_stays_down _ _ _ _ _ _ _ _ (store5_flag_stays_down _ _ _ _ _ _ _ _
        (store5_flag_stays_down _ _ _ _ _ _ _ _ hs))
  · simp only [h, Bool.false_and]

/-- When the extent of the variable dimension is `IEN`, a team of `visc1` that
runs at least one face makes a store out of range. -/
theorem visc1_out_of_range (pk : MeshBlockPack) (ix : VariableIndex) (w0 : DvceArray5D)
    (nu : ℚ) (m k j : Int) (hi : pk.mb_cells.is ≤ i32 (pk.mb_cells.ie + 1)) (s : Written5D) :
    (visc1 pk ix ix.IEN w0 nu m k j s).inRange = false := by
  unfold visc1
  refine forRange_flag_down _ _ _ (fun s : Written5D => s.inRange) ?_ pk.mb_cells.is
    (le_refl _) hi ?_ _
  · intro i s hs
    simp only [if_true]
    exact store5_flag_stays_down _ _ _ _ _ _ _ _ (store5_flag_stays_down _ _ _ _ _ _ _ _
      (store5_flag_stays_down _ _ _ _ _ _ _ _ (store5_flag_stays_down _ _ _ _ _ _ _ _ hs)))
  · intro s
    simp only [if_true]
    unfold store5
    rw [if_neg (fun h => absurd h.2 (lt_irrefl _))]

/-- The energy store of line 126.  When the extent of the variable dimension of
the flux arrays is `IEN` (the condition of line 125) and the loops run at all,
`IsotropicViscousFlux` stores at variable index `IEN`, which is out of range, and
has no defined result. -/
theorem IsotropicViscousFlux_energy_store_out_of_range (pk : MeshBlockPack)
    (ix : VariableIndex) (w0 : DvceArray5D) (flx : DvceFaceFld5D) (nu : ℚ)
    (hm : 0 ≤ i32 (pk.nmb_thispack - 1)) (hk : pk.mb_cells.ks ≤ pk.mb_cells.ke)
    (hj : pk.mb_cells.js ≤ pk.mb_cells.je)
    (hi : pk.mb_cells.is ≤ i32 (pk.mb_cells.ie + 1)) :
    IsotropicViscousFlux pk ix ix.IEN w0 flx nu = none := by
  have hflag : (par_for_outer 0 (i32 (pk.nmb_thispack - 1)) pk.mb_cells.ks pk.mb_cells.ke
      pk.mb_cells.js pk.mb_cells.je (visc1 pk ix ix.IEN w0 nu)
      (⟨flx.x1f, true⟩ : Written5D)).inRange = false := by
    unfold par_for_outer
    refine forRange_flag_down _ _ _ (fun s : Written5D => s.inRange) ?_ 0 (le_refl _)
      hm ?_ _
    · intro m s hs
      refine forRange_flag_stays_down _ _ _ (fun s : Written5D => s.inRange) ?_ s hs
      intro k s hs
      refine forRange_flag_stays_down _ _ _ (fun s : Written5D => s.inRange) ?_ s hs
      intro j s hs
      exact visc1_flag_stays_down pk ix ix.IEN w0 nu m k j s hs
    · intro s
      refine forRange_flag_down _ _ _ (fun s : Written5D => s.inRange) ?_ pk.mb_cells.ks
        (le_refl _) hk ?_ s
      · intro k s hs
        refine forRange_flag_stays_down _ _ _ (fun s : Written5D => s.inRange) ?_ s hs
        intro j s hs
        exact visc1_flag_stays_down pk ix ix.IEN w0 nu 0 k j s hs
      · intro s
        refine forRange_flag_down _ _ _ (fun s : Written5D => s.inRange) ?_ pk.mb_cells.js
          (le_refl _) hj ?_ s
        · intro j s hs
          exact visc1_flag_stays_down pk ix ix.IEN w0 nu 0 pk.mb_cells.ks j s hs
        · intro s
          exact visc1_out_of_range pk ix w0 nu 0 pk.mb_cells.ks pk.mb_cells.js hi s
  unfold IsotropicViscousFlux
  simp only [hflag, if_true]

end Diffusion

/-! ## SpECTRE initial data -/

namespace Pgen

theorem flat_emod (n0 I X : Int) (h : 0 ≤ I ∧ I < n0) : (I + n0 * X) % n0 = I := by
  rw [Int.add_mul_emod_self_left]
  exact Int.emod_eq_of_lt h.1 h.2

theorem flat_ediv (n0 I X : Int) (h : 0 ≤ I ∧ I < n0) : (I + n0 * X) / n0 = X := by
  rw [Int.add_mul_ediv_left _ _ (by omega : n0 ≠ 0), Int.ediv_eq_zero_of_lt h.1 h.2, zero_add]

/-- The flat index `I + n0 * (J + n1 * K)` determines the cell. -/
theorem flat_inj (n0 n1 I J K I' J' K' : Int) (hI : 0 ≤ I ∧ I < n0) (hJ : 0 ≤ J ∧ J < n1)
    (hI' : 0 ≤ I' ∧ I' < n0) (hJ' : 0 ≤ J' ∧ J' < n1)
    (h : I + n0 * (J + n1 * K) = I' + n0 * (J' + n1 * K')) : I = I' ∧ J = J' ∧ K = K' := by
  have e1 : I = I' := by
    have := congrArg (fun p => p % n0) h
    simpa only [flat_emod n0 I _ hI, flat_emod n0 I' _ hI'] using this
  have e2 : J + n1 * K = J' + n1 * K' := by
    have := congrArg (fun p => p / n0) h
    simpa only [flat_ediv n0 I _ hI, flat_ediv n0 I' _ hI'] using this
  have e3 : J = J' := by
    have := congrArg (fun p => p % n1) e2
    simpa only [flat_emod n1 J _ hJ, flat_emod n1 J' _ hJ'] using this
  have e4 : K = K' := by
    have := congrArg (fun p => p / n1) e2
    simpa only [flat_ediv n1 J _ hJ, flat_ediv n1 J' _ hJ'] using this
  exact ⟨e1, e3, e4⟩

theorem flat_bounds (n0 n1 n2 i j k : Int) (hi : 0 ≤ i ∧ i < n0) (hj : 0 ≤ j ∧ j < n1)
    (hk : 0 ≤ k ∧ k < n2) :
    0 ≤ i + n0 * (j + n1 * k) ∧ i + n0 * (j + n1 * k) < n0 * n1 * n2 := by
  have a1 : 0 ≤ n1 * k := Int.mul_nonneg (by omega) hk.1
  have a2 : n1 * k ≤ n1 * (n2 - 1) := Int.mul_le_mul_of_nonneg_left (by omega) (by omega)
  have a3 : 0 ≤ n0 * (j + n1 * k) := Int.mul_nonneg (by omega) (by omega)
  have a4 : n0 * (j + n1 * k) ≤ n0 * (n1 * n2 - 1) := by
    refine Int.mul_le_mul_of_nonneg_left ?_ (by omega)
    have : n1 * (n2 - 1) = n1 * n2 - n1 := by ring
    omega
  have a5 : n0 * (n1 * n2 - 1) = n0 * n1 * n2 - n0 := by ring
  constructor <;> omega

/-- On a 3D mesh addressable with an `int`, the `int` expressions for the array
extents, the number of entries and the loop bounds have their mathematical
values. -/
theorem mesh3d_wrap (c : RegionIndcs) (h : c.mesh3d) :
    ((1 ≤ c.nx1 + 2 * c.ng ∧ c.nx1 + 2 * c.ng ≤ 2147483647) ∧
     (1 ≤ c.nx2 + 2 * c.ng ∧ c.nx2 + 2 * c.ng ≤ 2147483647) ∧
     (1 ≤ c.nx3 + 2 * c.ng ∧ c.nx3 + 2 * c.ng ≤ 2147483647)) ∧
    (i32 (c.nx1 + i32 (2 * c.ng)) = c.nx1 + 2 * c.ng ∧
     i32 (c.nx2 + i32 (2 * c.ng)) = c.nx2 + 2 * c.ng ∧
     i32 (c.nx3 + i32 (2 * c.ng)) = c.nx3 + 2 * c.ng) ∧
    i32 (i32 ((c.nx1 + 2 * c.ng) * (c.nx2 + 2 * c.ng)) * (c.nx3 + 2 * c.ng)) =
      (c.nx1 + 2 * c.ng) * (c.nx2 + 2 * c.ng) * (c.nx3 + 2 * c.ng) ∧
    (i32 (c.is - c.ng) = 0 ∧ i32 (c.js - c.ng) = 0 ∧ i32 (c.ks - c.ng) = 0) ∧
    (i32 (c.ie + c.ng) = c.nx1 + 2 * c.ng - 1 ∧ i32 (c.je + c.ng) = c.nx2 + 2 * c.ng - 1 ∧
     i32 (c.ke + c.ng) = c.nx3 + 2 * c.ng - 1) ∧
    (i32 (c.nx1 + 2 * c.ng - 1 + 1) - 1 = c.nx1 + 2 * c.ng - 1 ∧
     i32 (c.nx2 + 2 * c.ng - 1 + 1) - 1 = c.nx2 + 2 * c.ng - 1 ∧
     i32 (c.nx3 + 2 * c.ng - 1 + 1) - 1 = c.nx3 + 2 * c.ng - 1) := by
  obtain ⟨⟨his, hjs, hks⟩, ⟨hie, hje, hke⟩, ⟨hng, h1, h2, h3⟩, hsz⟩ := h
  generalize hn0 : c.nx1 + 2 * c.ng = n0 at *
  generalize hn1 : c.nx2 + 2 * c.ng = n1 at *
  generalize hn2 : c.nx3 + 2 * c.ng = n2 at *
  have p0 : 1 ≤ n0 := by omega
  have p1 : 1 ≤ n1 := by omega
  have p2 : 1 ≤ n2 := by omega
  have q01 : 1 ≤ n0 * n1 := by
    have := Int.mul_le_mul p0 p1 (by omega) (by omega)
    omega
  have q012 : n0 * n1 ≤ n0 * n1 * n2 := le_mul_of_one_le_right (by omega) p2
  have q0 : n0 ≤ n0 * n1 := le_mul_of_one_le_right (by omega) p1
  have q1 : n1 ≤ n0 * n1 := le_mul_of_one_le_left (by omega) p0
  have q2 : n2 ≤ n0 * n1 * n2 := le_mul_of_one_le_left (by omega) q01
  have e2 : i32 (2 * c.ng) = 2 * c.ng := i32_eq _ ⟨by omega, by omega⟩
  rw [e2, hn0, hn1, hn2]
  refine ⟨⟨⟨p0, by omega⟩, ⟨p1, by omega⟩, ⟨p2, by omega⟩⟩, ⟨i32_eq _ ⟨by omega, by omega⟩, i32_eq _ ⟨by omega, by omega⟩,
    i32_eq _ ⟨by omega, by omega⟩⟩, ?_, ⟨?_, ?_, ?_⟩, ⟨?_, ?_, ?_⟩, ⟨?_, ?_, ?_⟩⟩
  · rw [i32_eq (n0 * n1) ⟨by omega, by omega⟩]
    exact i32_eq _ ⟨by omega, by omega⟩
  · rw [i32_eq _ ⟨by omega, by omega⟩]; omega
  · rw [i32_eq _ ⟨by omega, by omega⟩]; omega
  · rw [i32_eq _ ⟨by omega, by omega⟩]; omega
  · rw [i32_eq _ ⟨by omega, by omega⟩]; omega
  · rw [i32_eq _ ⟨by omega, by omega⟩]; omega
  · rw [i32_eq _ ⟨by omega, by omega⟩]; omega
  · rw [i32_eq _ ⟨by omega, by omega⟩]; omega
  · rw [i32_eq _ ⟨by omega, by omega⟩]; omega
  · rw [i32_eq _ ⟨by omega, by omega⟩]; omega

/-- Inside the box of a MeshBlock addressable with an `int`, the `int` expression
for `flat_ix` has its mathematical value, which is a valid entry number. -/
theorem flat_wrap (n0 n1 n2 i j k : Int) (hi : 0 ≤ i ∧ i < n0) (hj : 0 ≤ j ∧ j < n1)
    (hk : 0 ≤ k ∧ k < n2) (hsz : n0 * n1 * n2 ≤ 2147483647) :
    i32 (i + i32 (n0 * i32 (j + i32 (n1 * k)))) = i + n0 * (j + n1 * k) ∧
    0 ≤ i + n0 * (j + n1 * k) ∧ i + n0 * (j + n1 * k) < n0 * n1 * n2 := by
  have hb := flat_bounds n0 n1 n2 i j k hi hj hk
  have a1 : 0 ≤ n1 * k := Int.mul_nonneg (by omega) hk.1
  have a3 : 0 ≤ n0 * (j + n1 * k) := Int.mul_nonneg (by omega) (by omega)
  have a4 : j + n1 * k ≤ n0 * (j + n1 * k) := le_mul_of_one_le_left (by omega) (by omega)
  rw [i32_eq (n1 * k) ⟨by omega, by omega⟩, i32_eq (j + n1 * k) ⟨by omega, by omega⟩,
    i32_eq (n0 * (j + n1 * k)) ⟨by omega, by omega⟩,
    i32_eq (i + n0 * (j + n1 * k)) ⟨by omega, by omega⟩]
  exact ⟨rfl, hb⟩

theorem entries_get (sz : Int) (f : Int → ℚ) (p : Int) (hp : 0 ≤ p ∧ p < sz) :
    (entries sz f)[p.toNat]? = some (f p) := by
  unfold entries
  rw [List.getElem?_map, List.getElem?_range (by omega)]
  simp only [Option.map_some']
  congr 2
  omega

theorem set6_apply (t : Int → Int → Int → Int → Int → Int → ℚ) (m a b k j i : Int) (v : ℚ)
    (m' a' b' k' j' i' : Int) :
    set6 t m a b k j i v m' a' b' k' j' i' =
      if m' = m ∧ a' = a ∧ b' = b ∧ k' = k ∧ j' = j ∧ i' = i then v
      else t m' a' b' k' j' i' := rfl

/-- After the coordinate loops, the entry that belongs to cell `(I, J, K)` of the
ghost-inclusive box holds the centre of that cell. -/
theorem fillCoords_at (ext : Externals) (c : RegionIndcs) (sizem : RegionSize) (sz : Int)
    (x : Coords) (h : c.mesh3d)
    (I J K : Int) (hI : 0 ≤ I ∧ I < c.nx1 + 2 * c.ng) (hJ : 0 ≤ J ∧ J < c.nx2 + 2 * c.ng)
    (hK : 0 ≤ K ∧ K < c.nx3 + 2 * c.ng) :
    (fillCoords ext c sizem sz x).x0 (I + (c.nx1 + 2 * c.ng) * (J + (c.nx2 + 2 * c.ng) * K)) =
      ext.CellCenterX (I - c.is) c.nx1 sizem.x1min sizem.x1max ∧
    (fillCoords ext c sizem sz x).x1 (I + (c.nx1 + 2 * c.ng) * (J + (c.nx2 + 2 * c.ng) * K)) =
      ext.CellCenterX (J - c.js) c.nx2 sizem.x2min sizem.x2max ∧
    (fillCoords ext c sizem sz x).x2 (I + (c.nx1 + 2 * c.ng) * (J + (c.nx2 + 2 * c.ng) * K)) =
      ext.CellCenterX (K - c.ks) c.nx3 sizem.x3min sizem.x3max := by
  obtain ⟨⟨b0, b1, b2⟩, ⟨w0, w1, _⟩, _, ⟨ws0, ws1, ws2⟩, ⟨we0, we1, we2⟩, ⟨wl0, wl1, wl2⟩⟩ :=
    mesh3d_wrap c h
  obtain ⟨⟨his, hjs, hks⟩, _, ⟨hng, hx1, hx2, hx3⟩, hsz⟩ := h
  have key : ∀ (rd : Coords → ℚ) (val : ℚ),
      (∀ (s : Coords) (p : Int) (a b d : ℚ) (f : Bool),
        p ≠ I + (c.nx1 + 2 * c.ng) * (J + (c.nx2 + 2 * c.ng) * K) →
        rd ⟨set1 s.x0 p a, set1 s.x1 p b, set1 s.x2 p d, f⟩ = rd s) →
      (∀ (s : Coords) (f : Bool),
        rd ⟨set1 s.x0 (I + (c.nx1 + 2 * c.ng) * (J + (c.nx2 + 2 * c.ng) * K))
          (ext.CellCenterX (I - c.is) c.nx1 sizem.x1min sizem.x1max),
        set1 s.x1 (I + (c.nx1 + 2 * c.ng) * (J + (c.nx2 + 2 * c.ng) * K))
          (ext.CellCenterX (J - c.js) c.nx2 sizem.x2min sizem.x2max),
        set1 s.x2 (I + (c.nx1 + 2 * c.ng) * (J + (c.nx2 + 2 * c.ng) * K))
          (ext.CellCenterX (K - c.ks) c.nx3 sizem.x3min sizem.x3max), f⟩ = val) →
      rd (fillCoords ext c sizem sz x) = val := by
    intro rd val hother hhit
    unfold fillCoords
    simp only [w0, w1, ws0, ws1, ws2, we0, we1, we2, wl0, wl1, wl2]
    refine forRange3_once _ _ _ _ _ _ _ rd (fun _ => val) I J K ⟨hI.1, by omega⟩
      ⟨hJ.1, by omega⟩ ⟨hK.1, by omega⟩ ?_ ?_ x
    · intro a b d ha hb hd hne s
      have hw := (flat_wrap _ _ _ a b d ⟨ha.1, by omega⟩ ⟨hb.1, by omega⟩ ⟨hd.1, by omega⟩
        hsz).1
      simp only [hw]
      refine hother s _ _ _ _ _ ?_
      intro h
      exact hne (flat_inj _ _ a b d I J K ⟨ha.1, by omega⟩ ⟨hb.1, by omega⟩ hI hJ h)
    · intro s
      have hw := (flat_wrap _ _ _ I J K hI hJ hK hsz).1
      simp only [hw, i32_eq (I - c.is) ⟨by omega, by omega⟩,
        i32_eq (J - c.js) ⟨by omega, by omega⟩, i32_eq (K - c.ks) ⟨by omega, by omega⟩]
      exact hhit s _
  refine ⟨key (fun s => s.x0 _) _ ?_ ?_, key (fun s => s.x1 _) _ ?_ ?_,
    key (fun s => s.x2 _) _ ?_ ?_⟩
  all_goals first
    | (intro s p a b d f hne; simp [set1_apply, Ne.symm hne])
    | (intro s f; simp [set1_apply])

/-- On a 3D mesh addressable with an `int`, the coordinate loops access the
vectors (of as many entries as the MeshBlock has cells) only in range. -/
theorem fillCoords_inRange (ext : Externals) (c : RegionIndcs) (sizem : RegionSize)
    (x : Coords) (h : c.mesh3d) :
    (fillCoords ext c sizem
      ((c.nx1 + 2 * c.ng) * (c.nx2 + 2 * c.ng) * (c.nx3 + 2 * c.ng)) x).inRange = x.inRange := by
  obtain ⟨⟨b0, b1, b2⟩, ⟨w0, w1, _⟩, _, ⟨ws0, ws1, ws2⟩, ⟨we0, we1, we2⟩, ⟨wl0, wl1, wl2⟩⟩ :=
    mesh3d_wrap c h
  have hsz := h.2.2.2
  unfold fillCoords
  simp only [w0, w1, ws0, ws1, ws2, we0, we1, we2, wl0, wl1, wl2]
  refine forRange3_untouched _ _ _ _ _ _ _ (fun s : Coords => s.inRange) ?_ x
  intro a b d ha hb hd s
  have hw := flat_wrap _ _ _ a b d ⟨ha.1, by omega⟩ ⟨hb.1, by omega⟩ ⟨hd.1, by omega⟩ hsz
  simp only [hw.1, hw.2.1, hw.2.2, and_self, decide_True, Bool.and_true]

/-- On a 3D mesh addressable with an `int`, the coordinate vectors handed to the
interpolation for MeshBlock `m` are the target points of the spec-side
description, whatever the vectors held before. -/
theorem fillCoords_targets (ext : Externals) (pmbp : MeshBlockPack) (m : Int) (sz : Int)
    (x : Coords) (h : pmbp.mb_indcs.mesh3d) :
    (fillCoords ext pmbp.mb_indcs (pmbp.mb_size m) sz x).targets
      ((pmbp.mb_indcs.nx1 + 2 * pmbp.mb_indcs.ng) * (pmbp.mb_indcs.nx2 + 2 * pmbp.mb_indcs.ng) *
        (pmbp.mb_indcs.nx3 + 2 * pmbp.mb_indcs.ng)) = targetPointsOf ext pmbp m := by
  obtain ⟨⟨b0, b1, b2⟩, _⟩ := mesh3d_wrap pmbp.mb_indcs h
  have hcell : ∀ p : Nat, p ∈ List.range ((pmbp.mb_indcs.nx1 + 2 * pmbp.mb_indcs.ng) *
      (pmbp.mb_indcs.nx2 + 2 * pmbp.mb_indcs.ng) *
      (pmbp.mb_indcs.nx3 + 2 * pmbp.mb_indcs.ng)).toNat →
      (fillCoords ext pmbp.mb_indcs (pmbp.mb_size m) sz x).x0 (p : Int) =
        ext.CellCenterX ((p : Int) % (pmbp.mb_indcs.nx1 + 2 * pmbp.mb_indcs.ng) -
          pmbp.mb_indcs.is) pmbp.mb_indcs.nx1 (pmbp.mb_size m).x1min (pmbp.mb_size m).x1max ∧
      (fillCoords ext pmbp.mb_indcs (pmbp.mb_size m) sz x).x1 (p : Int) =
        ext.CellCenterX ((p : Int) / (pmbp.mb_indcs.nx1 + 2 * pmbp.mb_indcs.ng) %
          (pmbp.mb_indcs.nx2 + 2 * pmbp.mb_indcs.ng) - pmbp.mb_indcs.js) pmbp.mb_indcs.nx2
          (pmbp.mb_size m).x2min (pmbp.mb_size m).x2max ∧
      (fillCoords ext pmbp.mb_indcs (pmbp.mb_size m) sz x).x2 (p : Int) =
        ext.CellCenterX ((p : Int) / (pmbp.mb_indcs.nx1 + 2 * pmbp.mb_indcs.ng) /
          (pmbp.mb_indcs.nx2 + 2 * pmbp.mb_indcs.ng) - pmbp.mb_indcs.ks) pmbp.mb_indcs.nx3
          (pmbp.mb_size m).x3min (pmbp.mb_size m).x3max := by
    intro p hp
    have hat := fun I J K => fillCoords_at ext pmbp.mb_indcs (pmbp.mb_size m) sz x h I J K
    generalize pmbp.mb_indcs.nx1 + 2 * pmbp.mb_indcs.ng = n0 at *
    generalize pmbp.mb_indcs.nx2 + 2 * pmbp.mb_indcs.ng = n1 at *
    generalize pmbp.mb_indcs.nx3 + 2 * pmbp.mb_indcs.ng = n2 at *
    rw [List.mem_range] at hp
    have hP0 : (0 : Int) ≤ (p : Int) := Int.ofNat_nonneg p
    have hP1 : (p : Int) < n0 * (n1 * n2) := by
      rw [← mul_assoc]
      omega
    have hI0 := Int.emod_nonneg (p : Int) (by omega : n0 ≠ 0)
    have hI1 := Int.emod_lt_of_pos (p : Int) (by omega : 0 < n0)
    have hq0 : 0 ≤ (p : Int) / n0 := Int.ediv_nonneg hP0 (by omega)
    have hq1 : (p : Int) / n0 < n1 * n2 :=
      Int.ediv_lt_of_lt_mul (by omega) (by rw [mul_comm]; exact hP1)
    have hJ0 := Int.emod_nonneg ((p : Int) / n0) (by omega : n1 ≠ 0)
    have hJ1 := Int.emod_lt_of_pos ((p : Int) / n0) (by omega : 0 < n1)
    have hK0 : 0 ≤ (p : Int) / n0 / n1 := Int.ediv_nonneg hq0 (by omega)
    have hK1 : (p : Int) / n0 / n1 < n2 :=
      Int.ediv_lt_of_lt_mul (by omega) (by rw [mul_comm]; exact hq1)
    have hflat : (p : Int) =
        (p : Int) % n0 + n0 * ((p : Int) / n0 % n1 + n1 * ((p : Int) / n0 / n1)) := by
      rw [Int.emod_add_ediv, Int.emod_add_ediv]
    have hat' := hat ((p : Int) % n0) ((p : Int) / n0 % n1) ((p : Int) / n0 / n1)
      ⟨hI0, hI1⟩ ⟨hJ0, hJ1⟩ ⟨hK0, hK1⟩
    rw [← hflat] at hat'
    exact hat'
  unfold Coords.targets targetPointsOf entries
  simp only
  congr 1
  · exact List.map_congr_left (fun p hp => (hcell p hp).1)
  · exact List.map_congr_left (fun p hp => (hcell p hp).2.1)
  · exact List.map_congr_left (fun p hp => (hcell p hp).2.2)

/-- What the iteration of cell `(k, j, i)` leaves in a quantity that the other
cells of the block do not touch is what the whole move loop leaves in it. -/
theorem moveData_read (ext : Externals) (c : RegionIndcs) (data : Nat → Int → ℚ) (sz m : Int)
    (h : c.mesh3d) (k j i : Int) (hk : 0 ≤ k ∧ k < c.nx3 + 2 * c.ng)
    (hj : 0 ≤ j ∧ j < c.nx2 + 2 * c.ng) (hi : 0 ≤ i ∧ i < c.nx1 + 2 * c.ng)
    (rd : HostData → ℚ) (val : ℚ)
    (hframe : ∀ k' j' i' s, ¬ (k' = k ∧ j' = j ∧ i' = i) →
      rd (moveCell ext data (c.nx1 + 2 * c.ng) (c.nx2 + 2 * c.ng) sz m k' j' i' s) = rd s)
    (hhit : ∀ s, rd (moveCell ext data (c.nx1 + 2 * c.ng) (c.nx2 + 2 * c.ng) sz m k j i s) = val)
    (host : HostData) :
    rd (moveData ext c data sz m host) = val := by
  obtain ⟨_, ⟨w0, w1, _⟩, _, ⟨ws0, ws1, ws2⟩, ⟨we0, we1, we2⟩, _⟩ := mesh3d_wrap c h
  unfold moveData
  simp only [w0, w1, ws0, ws1, ws2, we0, we1, we2]
  exact forRange3_once _ _ _ _ _ _
    (fun k j i s => moveCell ext data (c.nx1 + 2 * c.ng) (c.nx2 + 2 * c.ng) sz m k j i s)
    rd (fun _ => val) k j i ⟨hk.1, by omega⟩ ⟨hj.1, by omega⟩ ⟨hi.1, by omega⟩
    (fun k' j' i' _ _ _ hne s => hframe k' j' i' s hne) hhit host

/-- The move loop of MeshBlock `m'` writes no metric or curvature component of
another MeshBlock. -/
theorem moveData_other_block (ext : Externals) (c : RegionIndcs) (data : Nat → Int → ℚ)
    (sz m' m a b k j i : Int) (hne : m ≠ m') (host : HostData) :
    (moveData ext c data sz m' host).adm.g_dd m a b k j i = host.adm.g_dd m a b k j i ∧
    (moveData ext c data sz m' host).adm.vK_dd m a b k j i = host.adm.vK_dd m a b k j i := by
  unfold moveData
  constructor
  · refine forRange3_untouched _ _ _ _ _ _ _ (fun s : HostData => s.adm.g_dd m a b k j i) ?_ host
    intro k' j' i' _ _ _ s
    simp [moveCell, set6_apply, hne]
  · refine forRange3_untouched _ _ _ _ _ _ _ (fun s : HostData => s.adm.vK_dd m a b k j i) ?_
      host
    intro k' j' i' _ _ _ s
    simp [moveCell, set6_apply, hne]

/-- On a 3D mesh addressable with an `int`, the move loop reads the data arrays
(one entry per cell of the MeshBlock) only in range. -/
theorem moveData_inRange (ext : Externals) (c : RegionIndcs) (data : Nat → Int → ℚ) (m : Int)
    (h : c.mesh3d) (host : HostData) :
    (moveData ext c data ((c.nx1 + 2 * c.ng) * (c.nx2 + 2 * c.ng) * (c.nx3 + 2 * c.ng)) m host).inRange = host.inRange := by
  obtain ⟨_, ⟨w0, w1, _⟩, _, ⟨ws0, ws1, ws2⟩, ⟨we0, we1, we2⟩, _⟩ := mesh3d_wrap c h
  have hsz := h.2.2.2
  unfold moveData
  simp only [w0, w1, ws0, ws1, ws2, we0, we1, we2]
  refine forRange3_untouched _ _ _ _ _ _ _ (fun s : HostData => s.inRange) ?_ host
  intro k j i hk hj hi s
  have hw := flat_wrap _ _ _ i j k ⟨hi.1, by omega⟩ ⟨hj.1, by omega⟩ ⟨hk.1, by omega⟩ hsz
  simp only [moveCell, hw.1, hw.2.1, hw.2.2, and_self, decide_True, Bool.and_true]

/-- The twelve components that the move loop leaves at cell `(k, j, i)` of
MeshBlock `m`. -/
theorem moveData_at (ext : Externals) (c : RegionIndcs) (data : Nat → Int → ℚ) (sz m : Int)
    (h : c.mesh3d) (k j i : Int) (hk : 0 ≤ k ∧ k < c.nx3 + 2 * c.ng)
    (hj : 0 ≤ j ∧ j < c.nx2 + 2 * c.ng) (hi : 0 ≤ i ∧ i < c.nx1 + 2 * c.ng)
    (host : HostData) (p : Int)
    (hp : p = i + (c.nx1 + 2 * c.ng) * (j + (c.nx2 + 2 * c.ng) * k)) :
    ((moveData ext c data sz m host).adm.g_dd m 0 0 k j i = data 0 p ∧
     (moveData ext c data sz m host).adm.g_dd m 0 1 k j i = data 1 p ∧
     (moveData ext c data sz m host).adm.g_dd m 1 1 k j i = data 2 p ∧
     (moveData ext c data sz m host).adm.g_dd m 0 2 k j i = data 3 p ∧
     (moveData ext c data sz m host).adm.g_dd m 1 2 k j i = data 4 p ∧
     (moveData ext c data sz m host).adm.g_dd m 2 2 k j i = data 5 p) ∧
    ((moveData ext c data sz m host).adm.vK_dd m 0 0 k j i = data 6 p ∧
     (moveData ext c data sz m host).adm.vK_dd m 0 1 k j i = data 7 p ∧
     (moveData ext c data sz m host).adm.vK_dd m 1 1 k j i = data 8 p ∧
     (moveData ext c data sz m host).adm.vK_dd m 0 2 k j i = data 9 p ∧
     (moveData ext c data sz m host).adm.vK_dd m 1 2 k j i = data 10 p ∧
     (moveData ext c data sz m host).adm.vK_dd m 2 2 k j i = data 11 p) := by
  subst hp
  have hw := (flat_wrap _ _ _ i j k hi hj hk h.2.2.2).1
  have hg : ∀ (a b : Int) (val : ℚ),
      (∀ s, (moveCell ext data (c.nx1 + 2 * c.ng) (c.nx2 + 2 * c.ng) sz m k j i s).adm.g_dd
        m a b k j i = val) →
      (moveData ext c data sz m host).adm.g_dd m a b k j i = val := by
    intro a b val hv
    refine moveData_read ext c data sz m h k j i hk hj hi (fun s => s.adm.g_dd m a b k j i) val
      ?_ hv host
    intro k' j' i' s hne
    have hne' : ¬ (k = k' ∧ j = j' ∧ i = i') := fun h => hne ⟨h.1.symm, h.2.1.symm, h.2.2.symm⟩
    simp [moveCell, set6_apply, hne']
  have hK : ∀ (a b : Int) (val : ℚ),
      (∀ s, (moveCell ext data (c.nx1 + 2 * c.ng) (c.nx2 + 2 * c.ng) sz m k j i s).adm.vK_dd
        m a b k j i = val) →
      (moveData ext c data sz m host).adm.vK_dd m a b k j i = val := by
    intro a b val hv
    refine moveData_read ext c data sz m h k j i hk hj hi (fun s => s.adm.vK_dd m a b k j i) val
      ?_ hv host
    intro k' j' i' s hne
    have hne' : ¬ (k = k' ∧ j = j' ∧ i = i') := fun h => hne ⟨h.1.symm, h.2.1.symm, h.2.2.symm⟩
    simp [moveCell, set6_apply, hne']
  refine ⟨⟨hg _ _ _ ?_, hg _ _ _ ?_, hg _ _ _ ?_, hg _ _ _ ?_, hg _ _ _ ?_, hg _ _ _ ?_⟩,
    ⟨hK _ _ _ ?_, hK _ _ _ ?_, hK _ _ _ ?_, hK _ _ _ ?_, hK _ _ _ ?_, hK _ _ _ ?_⟩⟩ <;>
  · intro s
    simp [moveCell, set6_apply, hw]

/-- On a 3D mesh addressable with an `int`, `LoadSpectreInitialData` returns: the
size of the vectors is not negative and no access is out of range.  What it
returns is the host data after the loop over the MeshBlocks. -/
theorem load_returns (ext : Externals) (pmbp : MeshBlockPack) (host0 : ADMhost_vars)
    (glob sub : String) (step : Int) (h : pmbp.mb_indcs.mesh3d) :
    LoadSpectreInitialData ext pmbp host0 glob sub step = some
      (forRange 0 (pmbp.nmb_thispack - 1) (fun m (st : Coords × HostData) =>
        (fillCoords ext pmbp.mb_indcs (pmbp.mb_size m) ((pmbp.mb_indcs.nx1 + 2 * pmbp.mb_indcs.ng) * (pmbp.mb_indcs.nx2 + 2 * pmbp.mb_indcs.ng) *
          (pmbp.mb_indcs.nx3 + 2 * pmbp.mb_indcs.ng)) st.1,
         moveData ext pmbp.mb_indcs
          (interpolate_to_points ext glob sub step
            ["SpatialMetric_xx", "SpatialMetric_yx", "SpatialMetric_yy",
         "SpatialMetric_zx", "SpatialMetric_zy", "SpatialMetric_zz",
         "ExtrinsicCurvature_xx", "ExtrinsicCurvature_yx", "ExtrinsicCurvature_yy",
         "ExtrinsicCurvature_zx", "ExtrinsicCurvature_zy", "ExtrinsicCurvature_zz"]
            ((fillCoords ext pmbp.mb_indcs (pmbp.mb_size m) ((pmbp.mb_indcs.nx1 + 2 * pmbp.mb_indcs.ng) * (pmbp.mb_indcs.nx2 + 2 * pmbp.mb_indcs.ng) *
          (pmbp.mb_indcs.nx3 + 2 * pmbp.mb_indcs.ng)) st.1).targets ((pmbp.mb_indcs.nx1 + 2 * pmbp.mb_indcs.ng) * (pmbp.mb_indcs.nx2 + 2 * pmbp.mb_indcs.ng) *
          (pmbp.mb_indcs.nx3 + 2 * pmbp.mb_indcs.ng))) true)
          ((pmbp.mb_indcs.nx1 + 2 * pmbp.mb_indcs.ng) * (pmbp.mb_indcs.nx2 + 2 * pmbp.mb_indcs.ng) *
          (pmbp.mb_indcs.nx3 + 2 * pmbp.mb_indcs.ng)) m st.2))
        ((⟨fun _ => 0, fun _ => 0, fun _ => 0, true⟩ : Coords),
         (⟨host0, true⟩ : HostData))).2.adm := by
  obtain ⟨⟨b0, b1, b2⟩, ⟨w0, w1, w2⟩, wsz, _⟩ := mesh3d_wrap pmbp.mb_indcs h
  have hpos : ¬ (((pmbp.mb_indcs.nx1 + 2 * pmbp.mb_indcs.ng) * (pmbp.mb_indcs.nx2 + 2 * pmbp.mb_indcs.ng) *
          (pmbp.mb_indcs.nx3 + 2 * pmbp.mb_indcs.ng)) < 0) := by
    have q01 : 1 ≤ (pmbp.mb_indcs.nx1 + 2 * pmbp.mb_indcs.ng) *
        (pmbp.mb_indcs.nx2 + 2 * pmbp.mb_indcs.ng) := by
      have := Int.mul_le_mul b0.1 b1.1 (by omega) (by omega)
      omega
    have := Int.mul_le_mul q01 b2.1 (by omega) (by omega)
    omega
  have hflag : ∀ st : Coords × HostData,
      (forRange 0 (pmbp.nmb_thispack - 1) (fun m (st : Coords × HostData) =>
        (fillCoords ext pmbp.mb_indcs (pmbp.mb_size m) ((pmbp.mb_indcs.nx1 + 2 * pmbp.mb_indcs.ng) * (pmbp.mb_indcs.nx2 + 2 * pmbp.mb_indcs.ng) *
          (pmbp.mb_indcs.nx3 + 2 * pmbp.mb_indcs.ng)) st.1,
         moveData ext pmbp.mb_indcs
          (interpolate_to_points ext glob sub step
            ["SpatialMetric_xx", "SpatialMetric_yx", "SpatialMetric_yy",
         "SpatialMetric_zx", "SpatialMetric_zy", "SpatialMetric_zz",
         "ExtrinsicCurvature_xx", "ExtrinsicCurvature_yx", "ExtrinsicCurvature_yy",
         "ExtrinsicCurvature_zx", "ExtrinsicCurvature_zy", "ExtrinsicCurvature_zz"]
            ((fillCoords ext pmbp.mb_indcs (pmbp.mb_size m) ((pmbp.mb_indcs.nx1 + 2 * pmbp.mb_indcs.ng) * (pmbp.mb_indcs.nx2 + 2 * pmbp.mb_indcs.ng) *
          (pmbp.mb_indcs.nx3 + 2 * pmbp.mb_indcs.ng)) st.1).targets ((pmbp.mb_indcs.nx1 + 2 * pmbp.mb_indcs.ng) * (pmbp.mb_indcs.nx2 + 2 * pmbp.mb_indcs.ng) *
          (pmbp.mb_indcs.nx3 + 2 * pmbp.mb_indcs.ng))) true)
          ((pmbp.mb_indcs.nx1 + 2 * pmbp.mb_indcs.ng) * (pmbp.mb_indcs.nx2 + 2 * pmbp.mb_indcs.ng) *
          (pmbp.mb_indcs.nx3 + 2 * pmbp.mb_indcs.ng)) m st.2)) st).1.inRange = st.1.inRange ∧
      (forRange 0 (pmbp.nmb_thispack - 1) (fun m (st : Coords × HostData) =>
        (fillCoords ext pmbp.mb_indcs (pmbp.mb_size m) ((pmbp.mb_indcs.nx1 + 2 * pmbp.mb_indcs.ng) * (pmbp.mb_indcs.nx2 + 2 * pmbp.mb_indcs.ng) *
          (pmbp.mb_indcs.nx3 + 2 * pmbp.mb_indcs.ng)) st.1,
         moveData ext pmbp.mb_indcs
          (interpolate_to_points ext glob sub step
            ["SpatialMetric_xx", "SpatialMetric_yx", "SpatialMetric_yy",
         "SpatialMetric_zx", "SpatialMetric_zy", "SpatialMetric_zz",
         "ExtrinsicCurvature_xx", "ExtrinsicCurvature_yx", "ExtrinsicCurvature_yy",
         "ExtrinsicCurvature_zx", "ExtrinsicCurvature_zy", "ExtrinsicCurvature_zz"]
            ((fillCoords ext pmbp.mb_indcs (pmbp.mb_size m) ((pmbp.mb_indcs.nx1 + 2 * pmbp.mb_indcs.ng) * (pmbp.mb_indcs.nx2 + 2 * pmbp.mb_indcs.ng) *
          (pmbp.mb_indcs.nx3 + 2 * pmbp.mb_indcs.ng)) st.1).targets ((pmbp.mb_indcs.nx1 + 2 * pmbp.mb_indcs.ng) * (pmbp.mb_indcs.nx2 + 2 * pmbp.mb_indcs.ng) *
          (pmbp.mb_indcs.nx3 + 2 * pmbp.mb_indcs.ng))) true)
          ((pmbp.mb_indcs.nx1 + 2 * pmbp.mb_indcs.ng) * (pmbp.mb_indcs.nx2 + 2 * pmbp.mb_indcs.ng) *
          (pmbp.mb_indcs.nx3 + 2 * pmbp.mb_indcs.ng)) m st.2)) st).2.inRange = st.2.inRange := by
    intro st
    constructor
    · refine forRange_untouched _ _ _ (fun st : Coords × HostData => st.1.inRange) ?_ st
      intro m _ _ s
      exact fillCoords_inRange ext pmbp.mb_indcs (pmbp.mb_size m) s.1 h
    · refine forRange_untouched _ _ _ (fun st : Coords × HostData => st.2.inRange) ?_ st
      intro m _ _ s
      exact moveData_inRange ext pmbp.mb_indcs _ m h s.2
  unfold LoadSpectreInitialData
  simp only [w0, w1, w2, wsz, hpos, if_false, (hflag _).1, (hflag _).2, Bool.and_self, if_true]

/-- What the iteration of MeshBlock `m` leaves in a quantity that the other
blocks do not touch is what the loop over the MeshBlocks leaves in it; the data
of that iteration are interpolated at the target points of block `m`. -/
theorem load_read (ext : Externals) (pmbp : MeshBlockPack) (host0 : ADMhost_vars)
    (glob sub : String) (step : Int) (h : pmbp.mb_indcs.mesh3d)
    (m : Int) (hm : 0 ≤ m ∧ m < pmbp.nmb_thispack) (rd : HostData → ℚ) (val : ℚ)
    (hother : ∀ m' data host, m ≠ m' →
      rd (moveData ext pmbp.mb_indcs data ((pmbp.mb_indcs.nx1 + 2 * pmbp.mb_indcs.ng) * (pmbp.mb_indcs.nx2 + 2 * pmbp.mb_indcs.ng) *
          (pmbp.mb_indcs.nx3 + 2 * pmbp.mb_indcs.ng)) m' host) = rd host)
    (hhit : ∀ host, rd (moveData ext pmbp.mb_indcs
      (interpolate_to_points ext glob sub step
        ["SpatialMetric_xx", "SpatialMetric_yx", "SpatialMetric_yy",
         "SpatialMetric_zx", "SpatialMetric_zy", "SpatialMetric_zz",
         "ExtrinsicCurvature_xx", "ExtrinsicCurvature_yx", "ExtrinsicCurvature_yy",
         "ExtrinsicCurvature_zx", "ExtrinsicCurvature_zy", "ExtrinsicCurvature_zz"]
        (targetPointsOf ext pmbp m) true) ((pmbp.mb_indcs.nx1 + 2 * pmbp.mb_indcs.ng) * (pmbp.mb_indcs.nx2 + 2 * pmbp.mb_indcs.ng) *
          (pmbp.mb_indcs.nx3 + 2 * pmbp.mb_indcs.ng)) m host) = val) :
    rd (forRange 0 (pmbp.nmb_thispack - 1) (fun m (st : Coords × HostData) =>
        (fillCoords ext pmbp.mb_indcs (pmbp.mb_size m) ((pmbp.mb_indcs.nx1 + 2 * pmbp.mb_indcs.ng) * (pmbp.mb_indcs.nx2 + 2 * pmbp.mb_indcs.ng) *
          (pmbp.mb_indcs.nx3 + 2 * pmbp.mb_indcs.ng)) st.1,
         moveData ext pmbp.mb_indcs
          (interpolate_to_points ext glob sub step
            ["SpatialMetric_xx", "SpatialMetric_yx", "SpatialMetric_yy",
         "SpatialMetric_zx", "SpatialMetric_zy", "SpatialMetric_zz",
         "ExtrinsicCurvature_xx", "ExtrinsicCurvature_yx", "ExtrinsicCurvature_yy",
         "ExtrinsicCurvature_zx", "ExtrinsicCurvature_zy", "ExtrinsicCurvature_zz"]
            ((fillCoords ext pmbp.mb_indcs (pmbp.mb_size m) ((pmbp.mb_indcs.nx1 + 2 * pmbp.mb_indcs.ng) * (pmbp.mb_indcs.nx2 + 2 * pmbp.mb_indcs.ng) *
          (pmbp.mb_indcs.nx3 + 2 * pmbp.mb_indcs.ng)) st.1).targets ((pmbp.mb_indcs.nx1 + 2 * pmbp.mb_indcs.ng) * (pmbp.mb_indcs.nx2 + 2 * pmbp.mb_indcs.ng) *
          (pmbp.mb_indcs.nx3 + 2 * pmbp.mb_indcs.ng))) true)
          ((pmbp.mb_indcs.nx1 + 2 * pmbp.mb_indcs.ng) * (pmbp.mb_indcs.nx2 + 2 * pmbp.mb_indcs.ng) *
          (pmbp.mb_indcs.nx3 + 2 * pmbp.mb_indcs.ng)) m st.2))
        ((⟨fun _ => 0, fun _ => 0, fun _ => 0, true⟩ : Coords),
         (⟨host0, true⟩ : HostData))).2 = val := by
  refine forRange_once 0 (pmbp.nmb_thispack - 1) _ (fun st : Coords × HostData => rd st.2)
    (fun _ => val) m hm.1 (by omega) ?_ ?_ _
  · intro m' _ _ hne st
    exact hother m' _ _ (Ne.symm hne)
  · intro st
    simp only
    rw [fillCoords_targets ext pmbp m _ st.1 h]
    exact hhit st.2

/-- C5. On a 3D mesh (`is = js = ks = ng`, `ie = is + nx1 - 1`, `je = js + nx2 - 1`,
`ke = ks + nx3 - 1`) with a non-negative number of ghost cells, at least one cell
in each direction and at most `INT_MAX` cells per MeshBlock, ghost cells included
(`mesh3d`), `LoadSpectreInitialData` returns, and for every MeshBlock `m` of the
pack and every cell `(i, j, k)` of the ghost-inclusive index box: entry number
`p = i + n0 * (j + n1 * k)` of the target points handed to the interpolation for
block `m` is the point `(CellCenterX(i-is, nx1, x1min, x1max),
CellCenterX(j-js, nx2, x2min, x2max), CellCenterX(k-ks, nx3, x3min, x3max))` of
that block, and the six metric and six extrinsic-curvature components returned
at `(m, ., ., k, j, i)` are the values the interpolation gives for target point
number `p`, component `(0,1)` from the `yx` field, `(0,2)` from `zx` and `(1,2)`
from `zy`. -/
theorem C5_spectre_data_at_cell_centres (ext : Externals) (pmbp : MeshBlockPack)
    (host0 : ADMhost_vars) (glob sub : String) (step : Int)
    (h : pmbp.mb_indcs.mesh3d)
    (m k j i : Int) (hm : 0 ≤ m ∧ m < pmbp.nmb_thispack)
    (hk : pmbp.mb_indcs.ks - pmbp.mb_indcs.ng ≤ k ∧ k ≤ pmbp.mb_indcs.ke + pmbp.mb_indcs.ng)
    (hj : pmbp.mb_indcs.js - pmbp.mb_indcs.ng ≤ j ∧ j ≤ pmbp.mb_indcs.je + pmbp.mb_indcs.ng)
    (hi : pmbp.mb_indcs.is - pmbp.mb_indcs.ng ≤ i ∧ i ≤ pmbp.mb_indcs.ie + pmbp.mb_indcs.ng) :
    ∃ out : ADMhost_vars, LoadSpectreInitialData ext pmbp host0 glob sub step = some out ∧
    ((targetPointsOf ext pmbp m).x0[(flatIndex pmbp.mb_indcs i j k).toNat]? =
        some (ext.CellCenterX (i - pmbp.mb_indcs.is) pmbp.mb_indcs.nx1
          (pmbp.mb_size m).x1min (pmbp.mb_size m).x1max) ∧
     (targetPointsOf ext pmbp m).x1[(flatIndex pmbp.mb_indcs i j k).toNat]? =
        some (ext.CellCenterX (j - pmbp.mb_indcs.js) pmbp.mb_indcs.nx2
          (pmbp.mb_size m).x2min (pmbp.mb_size m).x2max) ∧
     (targetPointsOf ext pmbp m).x2[(flatIndex pmbp.mb_indcs i j k).toNat]? =
        some (ext.CellCenterX (k - pmbp.mb_indcs.ks) pmbp.mb_indcs.nx3
          (pmbp.mb_size m).x3min (pmbp.mb_size m).x3max)) ∧
    (out.g_dd m 0 0 k j i =
        ext.field glob sub step "SpatialMetric_xx" (targetPointsOf ext pmbp m) true
          (flatIndex pmbp.mb_indcs i j k) ∧
     out.g_dd m 0 1 k j i =
        ext.field glob sub step "SpatialMetric_yx" (targetPointsOf ext pmbp m) true
          (flatIndex pmbp.mb_indcs i j k) ∧
     out.g_dd m 1 1 k j i =
        ext.field glob sub step "SpatialMetric_yy" (targetPointsOf ext pmbp m) true
          (flatIndex pmbp.mb_indcs i j k) ∧
     out.g_dd m 0 2 k j i =
        ext.field glob sub step "SpatialMetric_zx" (targetPointsOf ext pmbp m) true
          (flatIndex pmbp.mb_indcs i j k) ∧
     out.g_dd m 1 2 k j i =
        ext.field glob sub step "SpatialMetric_zy" (targetPointsOf ext pmbp m) true
          (flatIndex pmbp.mb_indcs i j k) ∧
     out.g_dd m 2 2 k j i =
        ext.field glob sub step "SpatialMetric_zz" (targetPointsOf ext pmbp m) true
          (flatIndex pmbp.mb_indcs i j k)) ∧
    (out.vK_dd m 0 0 k j i =
        ext.field glob sub step "ExtrinsicCurvature_xx" (targetPointsOf ext pmbp m) true
          (flatIndex pmbp.mb_indcs i j k) ∧
     out.vK_dd m 0 1 k j i =
        ext.field glob sub step "ExtrinsicCurvature_yx" (targetPointsOf ext pmbp m) true
          (flatIndex pmbp.mb_indcs i j k) ∧
     out.vK_dd m 1 1 k j i =
        ext.field glob sub step "ExtrinsicCurvature_yy" (targetPointsOf ext pmbp m) true
          (flatIndex pmbp.mb_indcs i j k) ∧
     out.vK_dd m 0 2 k j i =
        ext.field glob sub step "ExtrinsicCurvature_zx" (targetPointsOf ext pmbp m) true
          (flatIndex pmbp.mb_indcs i j k) ∧
     out.vK_dd m 1 2 k j i =
        ext.field glob sub step "ExtrinsicCurvature_zy" (targetPointsOf ext pmbp m) true
          (flatIndex pmbp.mb_indcs i j k) ∧
     out.vK_dd m 2 2 k j i =
        ext.field glob sub step "ExtrinsicCurvature_zz" (targetPointsOf ext pmbp m) true
          (flatIndex pmbp.mb_indcs i j k)) := by
  obtain ⟨⟨his, hjs, hks⟩, ⟨hie, hje, hke⟩, _, _⟩ := id h
  have hI : 0 ≤ i ∧ i < pmbp.mb_indcs.nx1 + 2 * pmbp.mb_indcs.ng := ⟨by omega, by omega⟩
  have hJ : 0 ≤ j ∧ j < pmbp.mb_indcs.nx2 + 2 * pmbp.mb_indcs.ng := ⟨by omega, by omega⟩
  have hK : 0 ≤ k ∧ k < pmbp.mb_indcs.nx3 + 2 * pmbp.mb_indcs.ng := ⟨by omega, by omega⟩
  have hb := flat_bounds _ _ _ i j k hI hJ hK
  have hg : ∀ (a b : Int) (val : ℚ),
      (∀ host, (moveData ext pmbp.mb_indcs
        (interpolate_to_points ext glob sub step
          ["SpatialMetric_xx", "SpatialMetric_yx", "SpatialMetric_yy",
         "SpatialMetric_zx", "SpatialMetric_zy", "SpatialMetric_zz",
         "ExtrinsicCurvature_xx", "ExtrinsicCurvature_yx", "ExtrinsicCurvature_yy",
         "ExtrinsicCurvature_zx", "ExtrinsicCurvature_zy", "ExtrinsicCurvature_zz"]
          (targetPointsOf ext pmbp m) true) ((pmbp.mb_indcs.nx1 + 2 * pmbp.mb_indcs.ng) * (pmbp.mb_indcs.nx2 + 2 * pmbp.mb_indcs.ng) *
          (pmbp.mb_indcs.nx3 + 2 * pmbp.mb_indcs.ng)) m host).adm.g_dd m a b k j i = val) →
      (forRange 0 (pmbp.nmb_thispack - 1) (fun m (st : Coords × HostData) =>
        (fillCoords ext pmbp.mb_indcs (pmbp.mb_size m) ((pmbp.mb_indcs.nx1 + 2 * pmbp.mb_indcs.ng) * (pmbp.mb_indcs.nx2 + 2 * pmbp.mb_indcs.ng) *
          (pmbp.mb_indcs.nx3 + 2 * pmbp.mb_indcs.ng)) st.1,
         moveData ext pmbp.mb_indcs
          (interpolate_to_points ext glob sub step
            ["SpatialMetric_xx", "SpatialMetric_yx", "SpatialMetric_yy",
         "SpatialMetric_zx", "SpatialMetric_zy", "SpatialMetric_zz",
         "ExtrinsicCurvature_xx", "ExtrinsicCurvature_yx", "ExtrinsicCurvature_yy",
         "ExtrinsicCurvature_zx", "ExtrinsicCurvature_zy", "ExtrinsicCurvature_zz"]
            ((fillCoords ext pmbp.mb_indcs (pmbp.mb_size m) ((pmbp.mb_indcs.nx1 + 2 * pmbp.mb_indcs.ng) * (pmbp.mb_indcs.nx2 + 2 * pmbp.mb_indcs.ng) *
          (pmbp.mb_indcs.nx3 + 2 * pmbp.mb_indcs.ng)) st.1).targets ((pmbp.mb_indcs.nx1 + 2 * pmbp.mb_indcs.ng) * (pmbp.mb_indcs.nx2 + 2 * pmbp.mb_indcs.ng) *
          (pmbp.mb_indcs.nx3 + 2 * pmbp.mb_indcs.ng))) true)
          ((pmbp.mb_indcs.nx1 + 2 * pmbp.mb_indcs.ng) * (pmbp.mb_indcs.nx2 + 2 * pmbp.mb_indcs.ng) *
          (pmbp.mb_indcs.nx3 + 2 * pmbp.mb_indcs.ng)) m st.2))
        ((⟨fun _ => 0, fun _ => 0, fun _ => 0, true⟩ : Coords),
         (⟨host0, true⟩ : HostData))).2.adm.g_dd m a b k j i = val :=
    fun a b val hv => load_read ext pmbp host0 glob sub step h m hm
      (fun s => s.adm.g_dd m a b k j i) val
      (fun m' data host hne =>
        (moveData_other_block ext pmbp.mb_indcs data _ m' m a b k j i hne host).1) hv
  have hv : ∀ (a b : Int) (val : ℚ),
      (∀ host, (moveData ext pmbp.mb_indcs
        (interpolate_to_points ext glob sub step
          ["SpatialMetric_xx", "SpatialMetric_yx", "SpatialMetric_yy",
         "SpatialMetric_zx", "SpatialMetric_zy", "SpatialMetric_zz",
         "ExtrinsicCurvature_xx", "ExtrinsicCurvature_yx", "ExtrinsicCurvature_yy",
         "ExtrinsicCurvature_zx", "ExtrinsicCurvature_zy", "ExtrinsicCurvature_zz"]
          (targetPointsOf ext pmbp m) true) ((pmbp.mb_indcs.nx1 + 2 * pmbp.mb_indcs.ng) * (pmbp.mb_indcs.nx2 + 2 * pmbp.mb_indcs.ng) *
          (pmbp.mb_indcs.nx3 + 2 * pmbp.mb_indcs.ng)) m host).adm.vK_dd m a b k j i = val) →
      (forRange 0 (pmbp.nmb_thispack - 1) (fun m (st : Coords × HostData) =>
        (fillCoords ext pmbp.mb_indcs (pmbp.mb_size m) ((pmbp.mb_indcs.nx1 + 2 * pmbp.mb_indcs.ng) * (pmbp.mb_indcs.nx2 + 2 * pmbp.mb_indcs.ng) *
          (pmbp.mb_indcs.nx3 + 2 * pmbp.mb_indcs.ng)) st.1,
         moveData ext pmbp.mb_indcs
          (interpolate_to_points ext glob sub step
            ["SpatialMetric_xx", "SpatialMetric_yx", "SpatialMetric_yy",
         "SpatialMetric_zx", "SpatialMetric_zy", "SpatialMetric_zz",
         "ExtrinsicCurvature_xx", "ExtrinsicCurvature_yx", "ExtrinsicCurvature_yy",
         "ExtrinsicCurvature_zx", "ExtrinsicCurvature_zy", "ExtrinsicCurvature_zz"]
            ((fillCoords ext pmbp.mb_indcs (pmbp.mb_size m) ((pmbp.mb_indcs.nx1 + 2 * pmbp.mb_indcs.ng) * (pmbp.mb_indcs.nx2 + 2 * pmbp.mb_indcs.ng) *
          (pmbp.mb_indcs.nx3 + 2 * pmbp.mb_indcs.ng)) st.1).targets ((pmbp.mb_indcs.nx1 + 2 * pmbp.mb_indcs.ng) * (pmbp.mb_indcs.nx2 + 2 * pmbp.mb_indcs.ng) *
          (pmbp.mb_indcs.nx3 + 2 * pmbp.mb_indcs.ng))) true)
          ((pmbp.mb_indcs.nx1 + 2 * pmbp.mb_indcs.ng) * (pmbp.mb_indcs.nx2 + 2 * pmbp.mb_indcs.ng) *
          (pmbp.mb_indcs.nx3 + 2 * pmbp.mb_indcs.ng)) m st.2))
        ((⟨fun _ => 0, fun _ => 0, fun _ => 0, true⟩ : Coords),
         (⟨host0, true⟩ : HostData))).2.adm.vK_dd m a b k j i = val :=
    fun a b val hv => load_read ext pmbp host0 glob sub step h m hm
      (fun s => s.adm.vK_dd m a b k j i) val
      (fun m' data host hne =>
        (moveData_other_block ext pmbp.mb_indcs data _ m' m a b k j i hne host).2) hv
  have hat := fun host => moveData_at ext pmbp.mb_indcs
    (interpolate_to_points ext glob sub step
      ["SpatialMetric_xx", "SpatialMetric_yx", "SpatialMetric_yy",
         "SpatialMetric_zx", "SpatialMetric_zy", "SpatialMetric_zz",
         "ExtrinsicCurvature_xx", "ExtrinsicCurvature_yx", "ExtrinsicCurvature_yy",
         "ExtrinsicCurvature_zx", "ExtrinsicCurvature_zy", "ExtrinsicCurvature_zz"]
      (targetPointsOf ext pmbp m) true) ((pmbp.mb_indcs.nx1 + 2 * pmbp.mb_indcs.ng) * (pmbp.mb_indcs.nx2 + 2 * pmbp.mb_indcs.ng) *
          (pmbp.mb_indcs.nx3 + 2 * pmbp.mb_indcs.ng)) m h k j i hK hJ hI host
    (flatIndex pmbp.mb_indcs i j k) rfl
  refine ⟨_, load_returns ext pmbp host0 glob sub step h, ⟨?_, ?_, ?_⟩,
    ⟨?_, ?_, ?_, ?_, ?_, ?_⟩, ⟨?_, ?_, ?_, ?_, ?_, ?_⟩⟩
  · unfold targetPointsOf flatIndex
    simp only
    rw [entries_get _ _ _ hb, flat_emod _ _ _ hI]
  · unfold targetPointsOf flatIndex
    simp only
    rw [entries_get _ _ _ hb, flat_ediv _ _ _ hI, flat_emod _ _ _ hJ]
  · unfold targetPointsOf flatIndex
    simp only
    rw [entries_get _ _ _ hb, flat_ediv _ _ _ hI, flat_ediv _ _ _ hJ]
  · exact hg 0 0 _ (fun host => (hat host).1.1)
  · exact hg 0 1 _ (fun host => (hat host).1.2.1)
  · exact hg 1 1 _ (fun host => (hat host).1.2.2.1)
  · exact hg 0 2 _ (fun host => (hat host).1.2.2.2.1)
  · exact hg 1 2 _ (fun host => (hat host).1.2.2.2.2.1)
  · exact hg 2 2 _ (fun host => (hat host).1.2.2.2.2.2)
  · exact hv 0 0 _ (fun host => (hat host).2.1)
  · exact hv 0 1 _ (fun host => (hat host).2.2.1)
  · exact hv 1 1 _ (fun host => (hat host).2.2.2.1)
  · exact hv 0 2 _ (fun host => (hat host).2.2.2.2.1)
  · exact hv 1 2 _ (fun host => (hat host).2.2.2.2.2.1)
  · exact hv 2 2 _ (fun host => (hat host).2.2.2.2.2.2)

/-- Witness of C5: the ghost cell `(i, j, k) = (0, 2, 3)` of the single block of
the 3D pack `demoPack3d` (`8 * 8 * 8 = 512` cells). -/
theorem C5_spectre_data_at_cell_centres_witness :
    demoPack3d.mb_indcs.mesh3d ∧
    ((0 : Int) ≤ 0 ∧ 0 < demoPack3d.nmb_thispack) ∧
    (demoPack3d.mb_indcs.ks - demoPack3d.mb_indcs.ng ≤ 3 ∧
      3 ≤ demoPack3d.mb_indcs.ke + demoPack3d.mb_indcs.ng) ∧
    (demoPack3d.mb_indcs.js - demoPack3d.mb_indcs.ng ≤ 2 ∧
      2 ≤ demoPack3d.mb_indcs.je + demoPack3d.mb_indcs.ng) ∧
    (demoPack3d.mb_indcs.is - demoPack3d.mb_indcs.ng ≤ 0 ∧
      0 ≤ demoPack3d.mb_indcs.ie + demoPack3d.mb_indcs.ng) ∧
    (∃ out : ADMhost_vars,
      LoadSpectreInitialData demoExt demoPack3d demoHost "bbh*.h5" "VolumeData" (-1) = some out ∧
    ((targetPointsOf demoExt demoPack3d 0).x0[(flatIndex demoPack3d.mb_indcs 0 2 3).toNat]? =
        some (demoExt.CellCenterX (0 - demoPack3d.mb_indcs.is) demoPack3d.mb_indcs.nx1
          (demoPack3d.mb_size 0).x1min (demoPack3d.mb_size 0).x1max) ∧
     (targetPointsOf demoExt demoPack3d 0).x1[(flatIndex demoPack3d.mb_indcs 0 2 3).toNat]? =
        some (demoExt.CellCenterX (2 - demoPack3d.mb_indcs.js) demoPack3d.mb_indcs.nx2
          (demoPack3d.mb_size 0).x2min (demoPack3d.mb_size 0).x2max) ∧
     (targetPointsOf demoExt demoPack3d 0).x2[(flatIndex demoPack3d.mb_indcs 0 2 3).toNat]? =
        some (demoExt.CellCenterX (3 - demoPack3d.mb_indcs.ks) demoPack3d.mb_indcs.nx3
          (demoPack3d.mb_size 0).x3min (demoPack3d.mb_size 0).x3max)) ∧
    (out.g_dd 0 0 0 3 2 0 =
        demoExt.field "bbh*.h5" "VolumeData" (-1) "SpatialMetric_xx" (targetPointsOf demoExt demoPack3d 0) true
          (flatIndex demoPack3d.mb_indcs 0 2 3) ∧
     out.g_dd 0 0 1 3 2 0 =
        demoExt.field "bbh*.h5" "VolumeData" (-1) "SpatialMetric_yx" (targetPointsOf demoExt demoPack3d 0) true
          (flatIndex demoPack3d.mb_indcs 0 2 3) ∧
     out.g_dd 0 1 1 3 2 0 =
        demoExt.field "bbh*.h5" "VolumeData" (-1) "SpatialMetric_yy" (targetPointsOf demoExt demoPack3d 0) true
          (flatIndex demoPack3d.mb_indcs 0 2 3) ∧
     out.g_dd 0 0 2 3 2 0 =
        demoExt.field "bbh*.h5" "VolumeData" (-1) "SpatialMetric_zx" (targetPointsOf demoExt demoPack3d 0) true
          (flatIndex demoPack3d.mb_indcs 0 2 3) ∧
     out.g_dd 0 1 2 3 2 0 =
        demoExt.field "bbh*.h5" "VolumeData" (-1) "SpatialMetric_zy" (targetPointsOf demoExt demoPack3d 0) true
          (flatIndex demoPack3d.mb_indcs 0 2 3) ∧
     out.g_dd 0 2 2 3 2 0 =
        demoExt.field "bbh*.h5" "VolumeData" (-1) "SpatialMetric_zz" (targetPointsOf demoExt demoPack3d 0) true
          (flatIndex demoPack3d.mb_indcs 0 2 3)) ∧
    (out.vK_dd 0 0 0 3 2 0 =
        demoExt.field "bbh*.h5" "VolumeData" (-1) "ExtrinsicCurvature_xx" (targetPointsOf demoExt demoPack3d 0) true
          (flatIndex demoPack3d.mb_indcs 0 2 3) ∧
     out.vK_dd 0 0 1 3 2 0 =
        demoExt.field "bbh*.h5" "VolumeData" (-1) "ExtrinsicCurvature_yx" (targetPointsOf demoExt demoPack3d 0) true
          (flatIndex demoPack3d.mb_indcs 0 2 3) ∧
     out.vK_dd 0 1 1 3 2 0 =
        demoExt.field "bbh*.h5" "VolumeData" (-1) "ExtrinsicCurvature_yy" (targetPointsOf demoExt demoPack3d 0) true
          (flatIndex demoPack3d.mb_indcs 0 2 3) ∧
     out.vK_dd 0 0 2 3 2 0 =
        demoExt.field "bbh*.h5" "VolumeData" (-1) "ExtrinsicCurvature_zx" (targetPointsOf demoExt demoPack3d 0) true
          (flatIndex demoPack3d.mb_indcs 0 2 3) ∧
     out.vK_dd 0 1 2 3 2 0 =
        demoExt.field "bbh*.h5" "VolumeData" (-1) "ExtrinsicCurvature_zy" (targetPointsOf demoExt demoPack3d 0) true
          (flatIndex demoPack3d.mb_indcs 0 2 3) ∧
     out.vK_dd 0 2 2 3 2 0 =
        demoExt.field "bbh*.h5" "VolumeData" (-1) "ExtrinsicCurvature_zz" (targetPointsOf demoExt demoPack3d 0) true
          (flatIndex demoPack3d.mb_indcs 0 2 3))) :=
  ⟨by unfold RegionIndcs.mesh3d; decide, by decide, by decide, by decide, by decide,
    C5_spectre_data_at_cell_centres demoExt demoPack3d demoHost "bbh*.h5" "VolumeData" (-1)
      (by unfold RegionIndcs.mesh3d; decide) 0 3 2 0 (by decide) (by decide) (by decide)
      (by decide)⟩

/-- The `int` overflow of `sz`.  For MeshBlocks of `1300 x 1300 x 1300` cells with two
ghost cells, `n[0] * n[1] * n[2] = 2217342464` does not fit an `int`; `sz` is
negative, `x[0].resize(sz)` throws, and `LoadSpectreInitialData` loads nothing. -/
theorem LoadSpectreInitialData_int_overflow :
    i32 (i32 ((1300 + i32 (2 * 2)) * (1300 + i32 (2 * 2))) * (1300 + i32 (2 * 2))) < 0 ∧
    LoadSpectreInitialData demoExt demoPackHuge demoHost "bbh*.h5" "VolumeData" (-1) = none :=
  ⟨by decide, rfl⟩

end Pgen

end AthenaK
